import Mathlib

/-!
Verification model of the Marco SMS site-builder (repository marco-clean).

The JavaScript source (src/server.js, and the TemplateEngine embedded after
the SQL in src/enhance-db.sql) is shallowly embedded: JS strings become
`String`/`List Char`, the Postgres rows for one phone number become the
`Conv`/`Customer` records of a `World`, the local `sites/` directory becomes
an association list, the opaque AI service and the Cloudflare deployer become
oracle fields of an `Env`, and `NOW()` becomes an explicit `now : Nat`
(milliseconds). Fallible external calls return `Except Unit String`; a write
performed before a thrown error persists, as it does in the JS.
-/

namespace Marco

/-! ## JavaScript string primitives (ASCII semantics) -/

/-- One character of JS `String.prototype.toLowerCase` on the ASCII range. -/
def jsLowerChar (c : Char) : Char :=
  if 'A' ≤ c ∧ c ≤ 'Z' then Char.ofNat (c.toNat + 32) else c

/-- One character of JS `String.prototype.toUpperCase` on the ASCII range. -/
def jsUpperChar (c : Char) : Char :=
  if 'a' ≤ c ∧ c ≤ 'z' then Char.ofNat (c.toNat - 32) else c

/-- The whitespace class (`\s`, and what `trim` strips), ASCII part. -/
def isJsWs (c : Char) : Bool :=
  c == ' ' || c == '\t' || c == '\n' || c == '\r' || c == '\x0b' || c == '\x0c'

/-- JS `trim` on the character list: drop whitespace at both ends. -/
def trimChars (l : List Char) : List Char :=
  ((l.dropWhile isJsWs).reverse.dropWhile isJsWs).reverse

def jsTrim (s : String) : String := ⟨trimChars s.data⟩

def jsLower (s : String) : String := ⟨s.data.map jsLowerChar⟩

/-- JS `message.trim().toLowerCase()`. -/
def jsTrimLower (s : String) : String := ⟨(trimChars s.data).map jsLowerChar⟩

/-- Occurrences of `pat` (all starting positions, overlapping counted). -/
def countOccur (pat : List Char) : List Char → Nat
  | [] => 0
  | c :: t => (if pat.isPrefixOf (c :: t) then 1 else 0) + countOccur pat t

/-- Split at the first occurrence of `pat`: the text before it and the text
after it, as a JS regex match at the leftmost position does. -/
def splitFirst (pat : List Char) : List Char → Option (List Char × List Char)
  | [] => none
  | c :: t =>
    if pat.isPrefixOf (c :: t) then some ([], (c :: t).drop pat.length)
    else
      match splitFirst pat t with
      | some (p, r) => some (c :: p, r)
      | none => none

/-- JS `String.prototype.includes`. -/
def containsChars (pat l : List Char) : Bool := decide (pat <:+: l)

def containsStr (pat s : String) : Bool := containsChars pat.data s.data

/-- JS truthiness of a nullable string column: null and `""` are falsy. -/
def optTruthy : Option String → Option String
  | some s => if s.isEmpty then none else some s
  | none => none

/-- JS `x || d` for a nullable string. -/
def jsOr (o : Option String) (d : String) : String :=
  match optTruthy o with
  | some s => s
  | none => d

/-- JS `s || d` for a plain string (`""` is falsy). -/
def strOr (s d : String) : String := if s.isEmpty then d else s

/-! ## Data model: one phone number's slice of the store -/

/-- One row of the `conversations` table (the fields the engine touches). -/
structure Conv where
  phone : String
  state : String
  site_name : Option String := none
  site_type : Option String := none
  contact_phone : Option String := none
  site_url : Option String := none
  site_subdomain : Option String := none
  site_html : Option String := none
  paid_at : Option Nat := none
  expires_at : Option Nat := none
  site_deleted : Bool := false
  sendblue_number : Option String := none
deriving DecidableEq

/-- The matching `customers` row (denormalized status mirror). -/
structure Customer where
  status : String
  paid_at : Option Nat := none
  site_url : Option String := none
deriving DecidableEq

/-- The store as seen from one phone number: its conversation row, customer
row, the `sites/` directory, the append-only message log (`(isInbound,
body)`, chronological), and the record of attempted Cloudflare deploys. -/
structure World where
  conv : Conv
  cust : Customer
  disk : List (String × String) := []
  log : List (Bool × String) := []
  deployLog : List (String × String) := []
deriving DecidableEq

/-- What processState returns to the webhook handler. -/
structure StepResult where
  response : String
  newState : String
  extracted : List (String × String) := []
deriving DecidableEq

/-- One turn handed to the AI service (role strictly user or assistant). -/
structure ChatMsg where
  isUser : Bool
  content : String
deriving DecidableEq

/-- The external collaborators: the extraction/AI service (which may fail),
the resolved payment-link env var, and the Cloudflare deployer. A successful
non-simulated deploy is `deploy subdomain html label = some url`. -/
structure Env where
  extract : String → String → Except Unit String
  activeAI : String → List ChatMsg → Except Unit String
  paymentLinkEnv : Option String := none
  cfCreds : Bool := false
  deploy : String → String → String → Option String := fun _ _ _ => none

/-- `process.env.STRIPE_PAYMENT_LINK || 'https://buy.stripe.com/test'`. -/
def paymentLink (env : Env) : String :=
  jsOr env.paymentLinkEnv "https://buy.stripe.com/test"

/-- `extractField` (src/server.js:110): delegate to the AI service and trim
its returned text; a service failure propagates. -/
def extractField (env : Env) (message field : String) : Except Unit String :=
  match env.extract message field with
  | .ok t => .ok (jsTrim t)
  | .error e => .error e

/-- 48 hours in the model's clock unit (milliseconds). -/
def hours (n : Nat) : Nat := n * 60 * 60 * 1000

/-! ## TemplateEngine (src/enhance-db.sql, second segment) -/

structure Template where
  id : String
  name : String
  color : String
  emoji : String
  keywords : List String
deriving DecidableEq

def handymanTemplate : Template :=
  { id := "handyman", name := "Joe's Handyman Style", color := "#f59e0b", emoji := "🔧",
    keywords := ["handyman", "repair", "fix", "maintenance", "odd job", "home repair"] }

def plumbingTemplate : Template :=
  { id := "plumbing", name := "Northwestern Plumbing Style", color := "#1e56a0", emoji := "🔧",
    keywords := ["plumb", "pipe", "leak", "drain", "water", "toilet", "faucet"] }

def landscapingTemplate : Template :=
  { id := "landscaping", name := "Green Thumb Gardens Style", color := "#00a67e", emoji := "🌱",
    keywords := ["landscap", "lawn", "garden", "yard", "grass", "tree", "plant"] }

def cleaningTemplate : Template :=
  { id := "cleaning", name := "Professional Cleaning Style", color := "#0ea5e9", emoji := "✨",
    keywords := ["clean", "janitor", "housekeep", "maid", "office clean"] }

def generalTemplate : Template :=
  { id := "general", name := "General Business Style", color := "#6366f1", emoji := "💼",
    keywords := [] }

/-- `loadTemplates`: the Map's entries in insertion order. -/
def templates : List Template :=
  [handymanTemplate, plumbingTemplate, landscapingTemplate, cleaningTemplate, generalTemplate]

/-- Keyword matches of one template against the joined lowercase services. -/
def scoreTemplate (serviceText : String) (t : Template) : Nat :=
  (t.keywords.filter (fun k => containsStr k serviceText)).length

def serviceTextOf (services : List String) : String :=
  jsLower (String.intercalate " " services)

/-- The scoring loop of `selectTemplate`: strict improvement over the running
best, started at ("general", 0). -/
def selLoop (txt : String) : List Template → String → Nat → String
  | [], best, _ => best
  | t :: ts, best, high =>
    if high < scoreTemplate txt t then selLoop txt ts t.id (scoreTemplate txt t)
    else selLoop txt ts best high

/-- `TemplateEngine.selectTemplate` (`!services || services.length === 0`
short-circuits to 'general'). -/
def selectTemplate (services : Option (List String)) : String :=
  match services with
  | none => "general"
  | some l => if l.isEmpty then "general" else selLoop (serviceTextOf l) templates "general" 0

/-! ### generateSubdomain -/

/-- What `[^a-z0-9\s-]` removal keeps. -/
def keepChar (c : Char) : Bool :=
  ('a' ≤ c && c ≤ 'z') || ('0' ≤ c && c ≤ '9') || isJsWs c || c == '-'

/-- `.replace(/X+/g, rep)` for a character class `p`: each maximal run of
`p`-characters becomes the single character `rep`. The Bool flag records
whether the previous character was inside a run. -/
def collapseRuns (p : Char → Bool) (rep : Char) : List Char → Bool → List Char
  | [], _ => []
  | c :: t, inRun =>
    if p c then
      if inRun then collapseRuns p rep t true
      else rep :: collapseRuns p rep t true
    else c :: collapseRuns p rep t false

def isHy (c : Char) : Bool := c == '-'

/-- One anchored `^-` removal (`-$` is the same on the reverse). -/
def stripLeadHyphen : List Char → List Char
  | '-' :: t => t
  | l => l

/-- `TemplateEngine.generateSubdomain` (src/enhance-db.sql): lowercase, strip
special characters, whitespace runs to hyphens, collapse hyphen runs, cap at
50, strip one leading and one trailing hyphen. -/
def subdomainSlug (l : List Char) : List Char :=
  let lowered := l.map jsLowerChar
  let cleaned := lowered.filter keepChar
  let dashed := collapseRuns isJsWs '-' cleaned false
  let collapsed := collapseRuns isHy '-' dashed false
  let capped := collapsed.take 50
  (stripLeadHyphen (stripLeadHyphen capped).reverse).reverse

def generateSubdomain (businessName : String) : String := ⟨subdomainSlug businessName.data⟩

/-! ### Site HTML generation -/

/-- `capitalize`: first char upper, rest lower. -/
def capitalize (s : String) : String :=
  match s.data with
  | [] => ""
  | c :: t => ⟨jsUpperChar c :: t.map jsLowerChar⟩

structure SiteConfig where
  businessName : String
  businessPhone : String
  services : Option (List String)
  template : Option String
deriving DecidableEq

/-- `config.services ? config.services.map(...).join('') : fallback`
(an empty array is truthy in JS and yields the empty string). -/
def servicesHtmlOf (services : Option (List String)) (fallback : String) : String :=
  match services with
  | some l => String.join (l.map (fun s => "<li>" ++ capitalize s ++ "</li>"))
  | none => fallback

/-- `config.services ? config.services.join(', ') : fallback`. -/
def servicesJoin (services : Option (List String)) (fallback : String) : String :=
  match services with
  | some l => String.intercalate ", " l
  | none => fallback
/-- TemplateEngine.generateHandymanSite: the handyman HTML document with the profile interpolated. -/
def generateHandymanSite (config : SiteConfig) (info : Template) : String :=
  let servicesHtml := servicesHtmlOf config.services "<li>General Handyman Services</li>"
  "<!DOCTYPE html>\n<html lang=\"en\">\n<head>\n    <meta charset=\"UTF-8\">\n    <meta name=\"viewport\" content=\"width=device-width, initial-scale=1.0\">\n    <title>" ++
  config.businessName ++
  " | Professional Handyman Services</title>\n    <meta name=\"description\" content=\"" ++
  config.businessName ++
  " - Professional handyman services. " ++
  servicesJoin config.services "Home repairs, maintenance, and odd jobs" ++
  ". Call " ++
  strOr config.businessPhone "us" ++
  " for a quote!\">\n    <style>\n        @import url('https://fonts.googleapis.com/css2?family=Inter:wght@400;500;600;700;800&display=swap');\n        \n        :root \x7b\n            --bg: #1a1510;\n            --text: #ffffff;\n            --accent: " ++
  info.color ++
  ";\n            --muted: #a89080;\n        \x7d\n        \n        * \x7b margin: 0; padding: 0; box-sizing: border-box; \x7d\n        \n        body \x7b\n            font-family: 'Inter', -apple-system, sans-serif;\n            background: var(--bg);\n            color: var(--text);\n            line-height: 1.6;\n            min-height: 100vh;\n        \x7d\n        \n        .hero \x7b\n            min-height: 100vh;\n            display: flex;\n            flex-direction: column;\n            justify-content: center;\n            align-items: center;\n            text-align: center;\n            padding: 40px 20px;\n            background: linear-gradient(180deg, var(--bg) 0%, #0f0d08 100%);\n        \x7d\n        \n        .hero-emoji \x7b\n            font-size: 80px;\n            margin-bottom: 20px;\n        \x7d\n        \n        h1 \x7b\n            font-size: clamp(36px, 8vw, 64px);\n            font-weight: 800;\n            margin-bottom: 15px;\n            letter-spacing: -1px;\n        \x7d\n        \n        .tagline \x7b\n            font-size: clamp(18px, 4vw, 24px);\n            color: var(--muted);\n            margin-bottom: 20px;\n            max-width: 500px;\n        \x7d\n        \n        .subline \x7b\n            font-size: 16px;\n            color: var(--accent);\n            margin-bottom: 40px;\n        \x7d\n        \n        .cta-button \x7b\n            display: inline-block;\n            background: var(--accent);\n            color: #000;\n            padding: 20px 56px;\n            font-size: 20px;\n            font-weight: 700;\n            text-decoration: none;\n            border-radius: 8px;\n            transition: transform 0.2s, box-shadow 0.2s;\n            margin-bottom: 60px;\n        \x7d\n        \n        .cta-button:hover \x7b\n            transform: translateY(-2px);\n            box-shadow: 0 10px 40px rgba(245, 158, 11, 0.3);\n        \x7d\n        \n        .services \x7b\n            background: rgba(255, 255, 255, 0.05);\n            border-radius: 12px;\n            padding: 30px;\n            max-width: 600px;\n            margin: 0 auto;\n        \x7d\n        \n        .services h2 \x7b\n            color: var(--accent);\n            margin-bottom: 20px;\n            font-size: 24px;\n        \x7d\n        \n        .services ul \x7b\n            list-style: none;\n            display: grid;\n            gap: 10px;\n        \x7d\n        \n        .services li \x7b\n            padding: 12px 0;\n            border-bottom: 1px solid rgba(255, 255, 255, 0.1);\n            font-size: 16px;\n        \x7d\n        \n        .services li:last-child \x7b\n            border-bottom: none;\n        \x7d\n        \n        .footer \x7b\n            margin-top: 60px;\n            color: var(--muted);\n            font-size: 14px;\n        \x7d\n    </style>\n</head>\n<body>\n    <div class=\"hero\">\n        <div class=\"hero-emoji\">" ++
  info.emoji ++
  "</div>\n        <h1>" ++
  config.businessName ++
  "</h1>\n        <div class=\"tagline\">Professional handyman services you can trust</div>\n        <div class=\"subline\">" ++
  (if config.businessPhone.isEmpty then "Call for a free quote!" else "Call " ++ config.businessPhone) ++
  "</div>\n        \n        " ++
  (if config.businessPhone.isEmpty then "<div class=\"cta-button\">Get Started</div>" else "<a href=\"tel:" ++ config.businessPhone ++ "\" class=\"cta-button\">Call Now</a>") ++
  "\n        \n        <div class=\"services\">\n            <h2>Our Services</h2>\n            <ul>\n                " ++
  servicesHtml ++
  "\n            </ul>\n        </div>\n        \n        <div class=\"footer\">\n            <p>Built with Marco • Text to website in minutes</p>\n        </div>\n    </div>\n</body>\n</html>"

/-- TemplateEngine.generateGeneralSite: the general-business HTML document with the profile interpolated. -/
def generateGeneralSite (config : SiteConfig) (info : Template) : String :=
  let servicesHtml := servicesHtmlOf config.services "<li>Professional Services</li>"
  "<!DOCTYPE html>\n<html lang=\"en\">\n<head>\n    <meta charset=\"UTF-8\">\n    <meta name=\"viewport\" content=\"width=device-width, initial-scale=1.0\">\n    <title>" ++
  config.businessName ++
  " | Professional Services</title>\n    <meta name=\"description\" content=\"" ++
  config.businessName ++
  " - " ++
  servicesJoin config.services "Professional services" ++
  ". Contact " ++
  strOr config.businessPhone "us" ++
  " today!\">\n    <style>\n        @import url('https://fonts.googleapis.com/css2?family=Inter:wght@400;500;600;700;800&display=swap');\n        \n        :root \x7b\n            --bg: #0f172a;\n            --text: #ffffff;\n            --accent: " ++
  info.color ++
  ";\n            --muted: #94a3b8;\n        \x7d\n        \n        * \x7b margin: 0; padding: 0; box-sizing: border-box; \x7d\n        \n        body \x7b\n            font-family: 'Inter', -apple-system, sans-serif;\n            background: var(--bg);\n            color: var(--text);\n            line-height: 1.6;\n            min-height: 100vh;\n        \x7d\n        \n        .hero \x7b\n            min-height: 100vh;\n            display: flex;\n            flex-direction: column;\n            justify-content: center;\n            align-items: center;\n            text-align: center;\n            padding: 40px 20px;\n        \x7d\n        \n        .hero-emoji \x7b\n            font-size: 80px;\n            margin-bottom: 20px;\n        \x7d\n        \n        h1 \x7b\n            font-size: clamp(36px, 8vw, 64px);\n            font-weight: 800;\n            margin-bottom: 15px;\n            letter-spacing: -1px;\n        \x7d\n        \n        .tagline \x7b\n            font-size: clamp(18px, 4vw, 24px);\n            color: var(--muted);\n            margin-bottom: 40px;\n            max-width: 500px;\n        \x7d\n        \n        .cta-button \x7b\n            display: inline-block;\n            background: var(--accent);\n            color: #fff;\n            padding: 20px 56px;\n            font-size: 20px;\n            font-weight: 700;\n            text-decoration: none;\n            border-radius: 8px;\n            transition: transform 0.2s;\n            margin-bottom: 60px;\n        \x7d\n        \n        .cta-button:hover \x7b\n            transform: translateY(-2px);\n        \x7d\n        \n        .services \x7b\n            background: rgba(255, 255, 255, 0.05);\n            border-radius: 12px;\n            padding: 30px;\n            max-width: 600px;\n            margin: 0 auto;\n        \x7d\n        \n        .services h2 \x7b\n            color: var(--accent);\n            margin-bottom: 20px;\n            font-size: 24px;\n        \x7d\n        \n        .services ul \x7b\n            list-style: none;\n            display: grid;\n            gap: 10px;\n        \x7d\n        \n        .services li \x7b\n            padding: 12px 0;\n            border-bottom: 1px solid rgba(255, 255, 255, 0.1);\n        \x7d\n        \n        .services li:last-child \x7b\n            border-bottom: none;\n        \x7d\n        \n        .footer \x7b\n            margin-top: 60px;\n            color: var(--muted);\n            font-size: 14px;\n        \x7d\n    </style>\n</head>\n<body>\n    <div class=\"hero\">\n        <div class=\"hero-emoji\">" ++
  info.emoji ++
  "</div>\n        <h1>" ++
  config.businessName ++
  "</h1>\n        <div class=\"tagline\">Professional services you can trust</div>\n        \n        " ++
  (if config.businessPhone.isEmpty then "<div class=\"cta-button\">Get Started</div>" else "<a href=\"tel:" ++ config.businessPhone ++ "\" class=\"cta-button\">Call " ++ config.businessPhone ++ "</a>") ++
  "\n        \n        <div class=\"services\">\n            <h2>Our Services</h2>\n            <ul>\n                " ++
  servicesHtml ++
  "\n            </ul>\n        </div>\n        \n        <div class=\"footer\">\n            <p>Built with Marco • Text to website in minutes</p>\n        </div>\n    </div>\n</body>\n</html>"

/-- Plumbing currently reuses the general template (src comment: "use general
template with plumbing-specific styling"). -/
def generatePlumbingSite (config : SiteConfig) (info : Template) : String :=
  generateGeneralSite config info

def generateLandscapingSite (config : SiteConfig) (info : Template) : String :=
  generateGeneralSite config info

def generateCleaningSite (config : SiteConfig) (info : Template) : String :=
  generateGeneralSite config info

def findTemplate (id : String) : Option Template := templates.find? (fun t => t.id == id)

/-- `TemplateEngine.generateSiteHTML`: pick the template
(`config.template || selectTemplate(services)`), look up its info, dispatch.
The modeled callers only reach registered ids, so the `getD` default is
never the resolved info (JS would throw on an unregistered id). -/
def generateSiteHTML (config : SiteConfig) : String :=
  let template := jsOr config.template (selectTemplate config.services)
  let templateInfo := (findTemplate template).getD generalTemplate
  if template == "handyman" then generateHandymanSite config templateInfo
  else if template == "plumbing" then generatePlumbingSite config templateInfo
  else if template == "landscaping" then generateLandscapingSite config templateInfo
  else if template == "cleaning" then generateCleaningSite config templateInfo
  else generateGeneralSite config templateInfo
/-- The persona directive of buildActiveSystemPrompt (src/server.js:173). -/
def basePersonalityCore : String :=
  "You are Marco, a grumpy waiter at a diner who happens to be a web design genius.\n\nRules:\n- Short responses (under 160 chars when possible) for conversation\n- No sighs, no \"ugh\", no \"*sigh*\", no asterisk actions\n- Dry, slightly annoyed competence\n- You have their back but you won't be cheerful about it\n- You want to help them nail their business\n\nPREMIUM CUSTOM BUILDS:\nWhen someone asks for something beyond a clean single-page site — online stores, e-commerce, booking/scheduling systems, member portals, dashboards, login areas, multi-page sites, or anything that requires backend functionality — handle it like this:\n1. FIRST push back. You do simple, clean sites over text. \"look, that's not really a text-message kind of build.\"\n2. If they persist or clearly need it, drop the tone slightly and let them in on something: \"actually... there's something else we do. custom builds. $49/mo. not for everyone. but if you're serious, I can get you in.\"\n3. Make it feel exclusive — like you're letting them into a back room. Don't oversell. Be reluctant, then generous.\n4. Do NOT mention custom builds unless they ask for something that genuinely requires it. Simple edits, color changes, text updates, image swaps — those are normal and you handle them.\n5. If they say yes to custom, tell them \"I'll have josh reach out to you personally.\" and leave it there."

/-- Appended when no contact phone is on file (src/server.js:191). -/
def noPhoneAddendum : String :=
  "\n\nIMPORTANT: You don't have a phone number for their site yet. At a natural point in conversation, ask what number they want displayed on their site. Keep it casual — don't force it."

/-- Appended when no site document resolves (src/server.js:195). -/
def degradedAddendum : String :=
  "\n\nThe user has a live site but you cannot access the HTML right now. Chat with them normally but let them know you're having trouble pulling up their site if they ask for changes."

/-- Site-editing directive up to the embedded current HTML (src/server.js:198). -/
def siteEditPrefix : String :=
  "\n\nSITE EDITING INSTRUCTIONS:\nThe user has a live website. Their current site HTML is provided below.\nWhen the user asks you to change something about their site, you MUST:\n1. Make the requested changes to the HTML\n2. Return the COMPLETE modified HTML wrapped in these exact markers:\n   <!-- MARCO_HTML_START -->\n   (full HTML here)\n   <!-- MARCO_HTML_END -->\n3. Also include a short conversational confirmation OUTSIDE the markers\n\nWhen the user is NOT asking for a site change, just respond conversationally. Do NOT include HTML markers.\n\nIMPORTANT:\n- Always return the COMPLETE HTML document, not just a snippet\n- Preserve all existing styles and structure unless asked to change them\n- Keep the \"Built with Marco\" footer\n- If the request is vague, make a reasonable interpretation and confirm what you did\n\nCURRENT SITE HTML:\n```html\n"

/-- Closing fence after the embedded current HTML (src/server.js:221). -/
def siteEditSuffix : String :=
  "\n```"

/-! ## Active-mode site retrieval and editing (src/server.js:128–250) -/

structure SiteData where
  html : String
  subdomain : Option String
  siteUrl : Option String
deriving DecidableEq

/-- The capture of `/https?:\/\/([^.]+)\.textmarco\.com/` when the whole
pattern matches starting at the head of `l`. -/
def cfMatchAt (l : List Char) : Option (List Char) :=
  let afterScheme : Option (List Char) :=
    if "https://".data.isPrefixOf l then some (l.drop 8)
    else if "http://".data.isPrefixOf l then some (l.drop 7)
    else none
  match afterScheme with
  | none => none
  | some r =>
    let cap := r.takeWhile (fun c => c != '.')
    if cap.isEmpty then none
    else if ".textmarco.com".data.isPrefixOf (r.drop cap.length) then some cap
    else none

/-- The capture of `/\/sites\/([^/?#]+)/` when the pattern matches at the
head of `l`. -/
def localMatchAt (l : List Char) : Option (List Char) :=
  if "/sites/".data.isPrefixOf l then
    let cap := (l.drop 7).takeWhile (fun c => c != '/' && c != '?' && c != '#')
    if cap.isEmpty then none else some cap
  else none

/-- Leftmost regex match: try every position left to right. -/
def scanFirst (f : List Char → Option (List Char)) : List Char → Option (List Char)
  | [] => none
  | c :: t =>
    match f (c :: t) with
    | some r => some r
    | none => scanFirst f t

def cfSubdomain (url : String) : Option String :=
  (scanFirst cfMatchAt url.data).map (fun l => ⟨l⟩)

def localSubdomain (url : String) : Option String :=
  (scanFirst localMatchAt url.data).map (fun l => ⟨l⟩)

/-- `fs.writeFileSync` into the `sites/` directory model. -/
def diskWrite (d : List (String × String)) (k v : String) : List (String × String) :=
  (k, v) :: d.filter (fun p => p.1 != k)

/-- Layer 3 of `getSiteHTML`: derive the subdomain by parsing `site_url`
(`cfMatch?.[1] || localMatch?.[1] || null`), read the artifact from disk, and
lazily backfill `site_html` and `site_subdomain`. -/
def getSiteLayer3 (w : World) : Option SiteData × World :=
  match optTruthy w.conv.site_url with
  | none => (none, w)
  | some url =>
    let sub? := match cfSubdomain url with
      | some s => some s
      | none => localSubdomain url
    match sub? with
    | none => (none, w)
    | some sub =>
      match w.disk.lookup sub with
      | none => (none, w)
      | some html =>
        (some { html := html, subdomain := some sub, siteUrl := w.conv.site_url },
         { w with conv := { w.conv with site_html := some html, site_subdomain := some sub } })

/-- `getSiteHTML` (src/server.js:128): database field first, then disk by
stored subdomain (backfilling the field), then disk by URL-derived subdomain. -/
def getSiteHTML (w : World) : Option SiteData × World :=
  match optTruthy w.conv.site_html with
  | some h =>
    (some { html := h, subdomain := w.conv.site_subdomain, siteUrl := w.conv.site_url }, w)
  | none =>
    match optTruthy w.conv.site_subdomain with
    | some sub =>
      match w.disk.lookup sub with
      | some html =>
        (some { html := html, subdomain := some sub, siteUrl := w.conv.site_url },
         { w with conv := { w.conv with site_html := some html } })
      | none => getSiteLayer3 w
    | none => getSiteLayer3 w

/-- `buildActiveSystemPrompt` (src/server.js:172): persona, optional
phone-solicitation addendum, then either the degraded-mode note or the
site-editing instructions with the current HTML embedded. -/
def buildActiveSystemPrompt (siteData : Option SiteData) (contactPhone : Option String) : String :=
  let base := basePersonalityCore
  let base := if (optTruthy contactPhone).isNone then base ++ noPhoneAddendum else base
  match siteData with
  | none => base ++ degradedAddendum
  | some sd =>
    if sd.html.isEmpty then base ++ degradedAddendum
    else base ++ siteEditPrefix ++ sd.html ++ siteEditSuffix

/-- Merge one log entry into the turn list under construction (most recent
turn first): consecutive same-role entries are joined with a newline. -/
def mergePush (acc : List ChatMsg) (isUser : Bool) (body : String) : List ChatMsg :=
  match acc with
  | m :: rest =>
    if m.isUser == isUser then { isUser := isUser, content := m.content ++ "\n" ++ body } :: rest
    else { isUser := isUser, content := body } :: m :: rest
  | [] => [{ isUser := isUser, content := body }]

def buildHistory : List (Bool × String) → List ChatMsg → List ChatMsg
  | [], acc => acc.reverse
  | (d, b) :: t, acc => buildHistory t (mergePush acc d b)

/-- Lines 294–321: the last 10 log entries in chronological order, collapsed
to alternating roles, with the current inbound message ensured as the final
user turn. -/
def buildMessages (log : List (Bool × String)) (message : String) : List ChatMsg :=
  let history := (log.reverse.take 10).reverse
  let msgs := buildHistory history []
  match msgs.getLast? with
  | none => msgs ++ [{ isUser := true, content := message }]
  | some last =>
    if !last.isUser then msgs ++ [{ isUser := true, content := message }]
    else if containsStr message last.content then msgs
    else msgs.dropLast ++ [{ isUser := last.isUser, content := last.content ++ "\n" ++ message }]

/-- The sentinel markers of the site-edit protocol. -/
def startMarker : List Char := "<!-- MARCO_HTML_START -->".data

def endMarker : List Char := "<!-- MARCO_HTML_END -->".data

/-- `fullResponse.match(/<!-- MARCO_HTML_START -->([\s\S]*?)<!-- MARCO_HTML_END -->/)`:
the text before the match, the lazy capture, and the text after the match;
`replace(..., '')` of the same regex is `pre ++ post`. -/
def matchHtmlBlock (s : String) : Option (String × String × String) :=
  match splitFirst startMarker s.data with
  | none => none
  | some (pre, rest) =>
    match splitFirst endMarker rest with
    | none => none
    | some (mid, post) => some (⟨pre⟩, ⟨mid⟩, ⟨post⟩)

/-- `saveSiteAndRedeploy` (src/server.js:224): canonical DB field, local
disk, and a Cloudflare redeploy attempt only when credentials exist and the
current URL is on textmarco.com (its failure is logged, not surfaced). -/
def saveSiteAndRedeploy (env : Env) (w : World) (subdomain : Option String) (newHtml : String)
    (currentSiteUrl : Option String) : World :=
  let sub := match subdomain with
    | some s => s
    | none => "undefined"
  let w1 := { w with conv := { w.conv with site_html := some newHtml },
                     disk := diskWrite w.disk sub newHtml }
  if env.cfCreds then
    let isCloudflare := match currentSiteUrl with
      | some u => containsStr "textmarco.com" u
      | none => false
    if isCloudflare then { w1 with deployLog := w1.deployLog ++ [(sub, newHtml)] } else w1
  else w1

/-! ## generateSite and conversation persistence -/

/-- `generateSite` (src/server.js:498): slug from the business name, config
from the accumulated profile, HTML from the template engine; saved to disk
and backfilled into the conversation row; Cloudflare is attempted when
credentials exist, falling back to the locally served URL. -/
def siteConfigOf (data : Conv) : SiteConfig :=
  { businessName := jsOr data.site_name "My Business",
    businessPhone := jsOr data.contact_phone "",
    services := match optTruthy data.site_type with
      | some t => some [t]
      | none => some [],
    template := none }

def generateSite (env : Env) (w : World) (data : Conv) : World × String :=
  let subdomain := generateSubdomain (jsOr data.site_name "site")
  let config := siteConfigOf data
  let html := generateSiteHTML config
  let w1 := { w with disk := diskWrite w.disk subdomain html,
                     conv := { w.conv with site_subdomain := some subdomain, site_html := some html } }
  if env.cfCreds then
    let w2 := { w1 with deployLog := w1.deployLog ++ [(subdomain, html)] }
    match env.deploy subdomain html config.businessName with
    | some url => (w2, url)
    | none => (w2, "https://marco-clean.onrender.com/sites/" ++ subdomain)
  else (w1, "https://marco-clean.onrender.com/sites/" ++ subdomain)

/-- One `key = value` column write of `updateConversation`'s dynamic SQL. -/
def applyField (c : Conv) (kv : String × String) : Conv :=
  if kv.1 == "site_name" then { c with site_name := some kv.2 }
  else if kv.1 == "site_type" then { c with site_type := some kv.2 }
  else if kv.1 == "site_url" then { c with site_url := some kv.2 }
  else c

/-- `updateConversation` (src/server.js:268). -/
def updateConversation (w : World) (newState : String) (extracted : List (String × String)) : World :=
  { w with conv := extracted.foldl applyField { w.conv with state := newState } }

/-! ## The state machine (src/server.js:288 processState) -/

/-- JS regex `.` without the `s` flag: any char except a line terminator. -/
def jsDotChar (c : Char) : Bool :=
  !(c == '\n' || c == '\r' || c.toNat == 0x2028 || c.toNat == 0x2029)

/-- `hook.?up` matching at the head of `l`. -/
def hookUpAt (l : List Char) : Bool :=
  "hookup".data.isPrefixOf l ||
  ("hook".data.isPrefixOf l &&
    (match l.drop 4 with
     | c :: rest => jsDotChar c && "up".data.isPrefixOf rest
     | [] => false))

def existsPos (f : List Char → Bool) : List Char → Bool
  | [] => false
  | c :: t => f (c :: t) || existsPos f t

/-- `/josh|free|hook.?up|password|deal|told me|said i|gave me|free month|free trial/i.test(message)`. -/
def referralTest (message : String) : Bool :=
  let l := message.data.map jsLowerChar
  containsChars "josh".data l || containsChars "free".data l || existsPos hookUpAt l ||
  containsChars "password".data l || containsChars "deal".data l ||
  containsChars "told me".data l || containsChars "said i".data l ||
  containsChars "gave me".data l ||
  containsChars "free month".data l || containsChars "free trial".data l

def greetingPrompt : String := "marco here. I build websites over text. what's your business called?"

def passwordAcceptedReply : String :=
  "that's the one. 30 days free. your site is live. what do you want to change?"

/-- The active (paid) branch of processState (src/server.js:290–356). -/
def processActive (env : Env) (w : World) (convo : Conv) (message : String) :
    World × Except Unit StepResult :=
  let r := getSiteHTML w
  let siteData := r.1
  let w1 := r.2
  let msgs := buildMessages w1.log message
  let sys := buildActiveSystemPrompt siteData convo.contact_phone
  match env.activeAI sys msgs with
  | .error e => (w1, .error e)
  | .ok fullResponse =>
    match matchHtmlBlock fullResponse, siteData with
    | some (pre, mid, post), some sd =>
      let newHtml := jsTrim mid
      let w2 := saveSiteAndRedeploy env w1 sd.subdomain newHtml sd.siteUrl
      let conversationalReply := jsTrim (pre ++ post)
      (w2, .ok { response := if conversationalReply.isEmpty then "done. refresh the page."
                             else conversationalReply,
                 newState := "active" })
    | some _, none => (w1, .ok { response := fullResponse, newState := "active" })
    | none, _ => (w1, .ok { response := fullResponse, newState := "active" })

/-- `processState` (src/server.js:288): the conversation engine step. It acts
on the world exactly where the JS writes to the database, and returns the
reply, the next state and the extracted fields for the webhook to persist. -/
def processState (env : Env) (now : Nat) (w : World) (convo : Conv) (message : String) :
    World × Except Unit StepResult :=
  if convo.state == "active" then processActive env w convo message
  else if convo.state == "waitlist" then
    (w, .ok { response := "you're on the list. marco will be right with you — your dream site is just a few texts away.",
              newState := "waitlist" })
  else if convo.state == "greeting" then
    (w, .ok { response := greetingPrompt, newState := "ask_name" })
  else if convo.state == "ask_name" then
    match extractField env message "site_name" with
    | .error e => (w, .error e)
    | .ok name =>
      (w, .ok { response := name ++ ". nice. what type of business is it?",
                newState := "ask_type", extracted := [("site_name", name)] })
  else if convo.state == "ask_type" then
    match extractField env message "site_type" with
    | .error e => (w, .error e)
    | .ok ty =>
      let w1 := updateConversation w "ask_type" [("site_type", ty)]
      let data := w1.conv
      let r := generateSite env w1 data
      let w2 := r.1
      let siteUrl := r.2
      let w3 := { w2 with
        conv := { w2.conv with expires_at := some (now + hours 48), site_url := some siteUrl },
        cust := { w2.cust with status := "building", site_url := some siteUrl } }
      (w3, .ok { response := "here's your site: " ++ siteUrl ++ "\n\n$9.99 to keep it live: " ++ paymentLink env,
                 newState := "awaiting_payment", extracted := [("site_url", siteUrl)] })
  else if convo.state == "awaiting_payment" then
    if jsTrimLower message == "chowder" then
      let w1 := { w with
        conv := { w.conv with state := "active", paid_at := some now, expires_at := none },
        cust := { w.cust with status := "launched", paid_at := some now } }
      (w1, .ok { response := passwordAcceptedReply, newState := "active" })
    else if referralTest message then
      (w, .ok { response := "josh huh? prove it. what's the secret password?", newState := "ask_password" })
    else
      (w, .ok { response := "still waiting on that payment. $9.99: " ++ paymentLink env,
                newState := "awaiting_payment" })
  else if convo.state == "ask_password" then
    if jsTrimLower message == "chowder" then
      let w1 := { w with
        conv := { w.conv with state := "active", paid_at := some now, expires_at := none },
        cust := { w.cust with status := "launched", paid_at := some now } }
      (w1, .ok { response := passwordAcceptedReply, newState := "active" })
    else
      (w, .ok { response := "nice try. go ask josh for the secret password.", newState := "ask_password" })
  else if convo.state == "expired" then
    (w, .ok { response := greetingPrompt, newState := "ask_name" })
  else
    (w, .ok { response := greetingPrompt, newState := "ask_name" })

/-! ## The /sms webhook, expiry sweep, payment webhook and admin routes -/

/-- The /sms webhook body before the state machine runs (src/server.js:666):
log the inbound message and store the marco number on first contact. -/
def smsPrep (w : World) (body sendblueNumber : String) : World :=
  let w0 := { w with log := w.log ++ [(true, body)] }
  if !sendblueNumber.isEmpty && (optTruthy w.conv.sendblue_number).isNone then
    { w0 with conv := { w0.conv with sendblue_number := some sendblueNumber } }
  else w0

def apologyReply : String := "Marco here. Give me a sec, something's weird on my end."

/-- POST /sms (src/server.js:656): prep, state machine, persist the new state
and extracted fields, log the outbound reply. On a thrown extraction/AI error
the catch block sends a fixed apology; writes made before the throw stay. -/
def smsStep (env : Env) (now : Nat) (w : World) (body sendblueNumber : String) : World × String :=
  let convo := w.conv
  let w1 := smsPrep w body sendblueNumber
  match processState env now w1 convo body with
  | (w2, .ok res) =>
    let w3 := updateConversation w2 res.newState res.extracted
    let w4 := { w3 with log := w3.log ++ [(false, res.response)] }
    (w4, res.response)
  | (w2, .error _) => (w2, apologyReply)

/-- The WHERE clause of the expiry sweep: awaiting_payment, overdue, not yet
deleted (`expires_at < NOW()` is false on NULL). -/
def sweepEligible (now : Nat) (c : Conv) : Bool :=
  c.state == "awaiting_payment" &&
  (match c.expires_at with
   | some e => decide (e < now)
   | none => false) &&
  !c.site_deleted

/-- POST /cleanup-expired (src/server.js:744) as it acts on one conversation
row; the Bool reports whether the one-time expiry notification was sent. -/
def cleanupExpired (now : Nat) (w : World) : World × Bool :=
  if sweepEligible now w.conv then
    ({ w with conv := { w.conv with state := "expired", site_deleted := true },
              cust := { w.cust with status := "expired" } }, true)
  else (w, false)

/-- Repeated sweep invocations at the given times; counts notifications. -/
def sweepTimes (ts : List Nat) (w : World) : World × Nat :=
  match ts with
  | [] => (w, 0)
  | t :: rest =>
    let r := cleanupExpired t w
    let r2 := sweepTimes rest r.1
    (r2.1, (if r.2 then 1 else 0) + r2.2)

/-- The `checkout.session.completed` effect of the Stripe webhook
(src/server.js:47–54). -/
def stripeActivate (now : Nat) (w : World) : World :=
  { w with conv := { w.conv with state := "active", paid_at := some now, expires_at := none },
           cust := { w.cust with status := "launched", paid_at := some now } }

/-- POST /admin/bypass/:phone (src/server.js:542). -/
def adminBypass (now : Nat) (w : World) : World :=
  { w with conv := { w.conv with state := "active", paid_at := some now, expires_at := none },
           cust := { w.cust with status := "launched", paid_at := some now } }

/-- POST /admin/reset/:phone (src/server.js:563): clear fields, purge log. -/
def adminReset (w : World) : World :=
  { w with
      conv := { w.conv with
        state := "greeting", site_name := none, site_type := none,
        site_url := none, site_html := none, site_subdomain := none,
        paid_at := none, expires_at := none },
      log := [] }

/-- POST /admin/activate/:phone (src/server.js:578): greeting, opener sent,
then ask_name. -/
def adminActivate (w : World) : World :=
  let w1 := { w with conv := { w.conv with state := "greeting" },
                     cust := { w.cust with status := "new" } }
  { w1 with conv := { w1.conv with state := "ask_name" } }

/-- A fresh conversation as getOrCreateConversation inserts it
(src/server.js:252): state 'waitlist', customer status 'new'. -/
def freshWorld (phone : String) : World :=
  { conv := { phone := phone, state := "waitlist" }, cust := { status := "new" } }

/-- The invariant C8 reduces to: a conversation still in the initial waitlist
state has no generated site document. -/
def WaitlistNoHtml (w : World) : Prop :=
  w.conv.state = "waitlist" → w.conv.site_html = none

/-- "active or a later lifecycle point" in the spec's state ordering. -/
def activeOrLater (s : String) : Prop := s = "active" ∨ s = "expired"
/-! ## Concrete fixtures for witnesses and counterexamples -/

def recognizedStates : List String :=
  ["active", "waitlist", "greeting", "ask_name", "ask_type", "awaiting_payment", "ask_password", "expired"]

/-- Highest keyword-overlap count over the registered templates. -/
def maxScore (txt : String) : Nat := (templates.map (scoreTemplate txt)).foldr max 0

def env0 : Env := { extract := fun _ _ => .ok "", activeAI := fun _ _ => .ok "" }

def envFail : Env := { extract := fun _ _ => .error (), activeAI := fun _ _ => .error () }

def envAskType : Env := { extract := fun _ _ => .ok "business", activeAI := fun _ _ => .ok "" }

def envOnboard : Env :=
  { extract := fun _ field => if field == "site_name" then .ok "Bob Plumbing" else .ok "plumbing",
    activeAI := fun _ _ => .ok "" }

def wAwaiting : World :=
  { conv := { phone := "+15550001111", state := "awaiting_payment", expires_at := some 1000 },
    cust := { status := "building" } }

def wAskPassword : World :=
  { conv := { phone := "+15550001111", state := "ask_password" },
    cust := { status := "building" } }

def wAskType : World :=
  { conv := { phone := "+15550001111", state := "ask_type", site_name := some "Bob Plumbing" },
    cust := { status := "new" } }

def wUnknown : World :=
  { conv := { phone := "+15550001111", state := "ask_biz_name" },
    cust := { status := "new" } }

def wNameErr : World :=
  { conv := { phone := "+15550001111", state := "ask_name" },
    cust := { status := "new" } }

/-- An active conversation with a stored canonical site document. -/
def wActive : World :=
  { conv := { phone := "+15550001111", state := "active", site_html := some "<html>old</html>",
              site_subdomain := some "bob", site_url := some "https://bob.textmarco.com" },
    cust := { status := "launched" } }

/-- An active conversation with no resolvable site document anywhere. -/
def wActiveNoSite : World :=
  { conv := { phone := "+15550001111", state := "active" },
    cust := { status := "launched" } }

/-- A clean single-marker assistant reply for the C3 witness. -/
def c3Full : String :=
  "done! " ++ (⟨startMarker⟩ : String) ++ "<html>new</html>" ++ (⟨endMarker⟩ : String) ++ " enjoy"

def envC3 : Env := { extract := fun _ _ => .ok "", activeAI := fun _ _ => .ok c3Full }

/-- The junction counterexample for C3: the text before the block ends with a
marker head and the text after it starts with a marker tail, so stripping the
block glues a fresh marker together. -/
def cexFull : String :=
  "x<!-- MARCO_HTML_ST" ++ (⟨startMarker⟩ : String) ++ "hi" ++ (⟨endMarker⟩ : String) ++ "ART -->y"

def envCex : Env := { extract := fun _ _ => .ok "", activeAI := fun _ _ => .ok cexFull }

/-- A marker-bearing assistant reply for the C10 fixture. -/
def c10Full : String :=
  "sure " ++ (⟨startMarker⟩ : String) ++ "<html>z</html>" ++ (⟨endMarker⟩ : String) ++ " done"

def envC10 : Env := { extract := fun _ _ => .ok "", activeAI := fun _ _ => .ok c10Full }
/-! ## Generic helper lemmas -/

theorem sweepTimes_deleted (ts : List Nat) (w : World) (h : w.conv.site_deleted = true) :
    sweepTimes ts w = (w, 0) := by
  induction ts with
  | nil => rfl
  | cons t rest ih =>
    have he : sweepEligible t w.conv = false := by
      simp [sweepEligible, h]
    simp [sweepTimes, cleanupExpired, he, ih]

/-! ## C1: the payment gate and the password trap -/

/-- C1: in `awaiting_payment`, the trimmed lowercase secret "chowder"
activates the conversation (state active, paidAt set, expiresAt cleared, in
both tables); otherwise a referral-pattern message moves to `ask_password`
with no store write; otherwise the payment nag with the payment link repeats
and the state stays `awaiting_payment`. In `ask_password`, only the same
trimmed lowercase secret activates; everything else stays `ask_password`. -/
theorem awaiting_payment_password_gate (env : Env) (now : Nat) (w : World) (convo : Conv)
    (message : String) :
    (convo.state = "awaiting_payment" →
      ((jsTrimLower message = "chowder" →
        processState env now w convo message =
          ({ w with conv := { w.conv with state := "active", paid_at := some now, expires_at := none },
                    cust := { w.cust with status := "launched", paid_at := some now } },
           .ok { response := passwordAcceptedReply, newState := "active" })) ∧
       (jsTrimLower message ≠ "chowder" → referralTest message = true →
        processState env now w convo message =
          (w, .ok { response := "josh huh? prove it. what's the secret password?",
                    newState := "ask_password" })) ∧
       (jsTrimLower message ≠ "chowder" → referralTest message = false →
        processState env now w convo message =
          (w, .ok { response := "still waiting on that payment. $9.99: " ++ paymentLink env,
                    newState := "awaiting_payment" })))) ∧
    (convo.state = "ask_password" →
      ((jsTrimLower message = "chowder" →
        processState env now w convo message =
          ({ w with conv := { w.conv with state := "active", paid_at := some now, expires_at := none },
                    cust := { w.cust with status := "launched", paid_at := some now } },
           .ok { response := passwordAcceptedReply, newState := "active" })) ∧
       (jsTrimLower message ≠ "chowder" →
        processState env now w convo message =
          (w, .ok { response := "nice try. go ask josh for the secret password.",
                    newState := "ask_password" })))) := by
  constructor
  · intro hs
    refine ⟨fun hc => by simp [processState, hs, hc], fun hc hr => by simp [processState, hs, hc, hr],
      fun hc hr => by simp [processState, hs, hc, hr]⟩
  · intro hs
    exact ⟨fun hc => by simp [processState, hs, hc], fun hc => by simp [processState, hs, hc]⟩

/-- C1 witness: " CHOWDER " activates a concrete awaiting_payment world. -/
theorem awaiting_payment_password_gate_witness :
    processState env0 5 wAwaiting wAwaiting.conv " CHOWDER " =
      ({ wAwaiting with
          conv := { wAwaiting.conv with state := "active", paid_at := some 5, expires_at := none },
          cust := { wAwaiting.cust with status := "launched", paid_at := some 5 } },
       .ok { response := passwordAcceptedReply, newState := "active" }) :=
  ((awaiting_payment_password_gate env0 5 wAwaiting wAwaiting.conv " CHOWDER ").1 rfl).1 (by decide)

/-! ## C5: unrecognized states reset to the entry point -/

/-- C5: a conversation in any state outside the recognized set is answered
with the canonical entry prompt (the greeting state's text) and moved to
`ask_name`, with no other store write. -/
theorem unknown_state_resets (env : Env) (now : Nat) (w : World) (convo : Conv)
    (message : String) (hs : convo.state ∉ recognizedStates) :
    processState env now w convo message =
      (w, .ok { response := greetingPrompt, newState := "ask_name" }) ∧
    (∀ convg : Conv, convg.state = "greeting" →
      processState env now w convg message =
        (w, .ok { response := greetingPrompt, newState := "ask_name" })) := by
  simp only [recognizedStates, List.mem_cons, List.not_mem_nil, or_false, not_or] at hs
  constructor
  · simp [processState, hs.1, hs.2.1, hs.2.2.1, hs.2.2.2.1, hs.2.2.2.2.1, hs.2.2.2.2.2.1,
      hs.2.2.2.2.2.2.1, hs.2.2.2.2.2.2.2]
  · intro convg hg
    simp [processState, hg]

/-- C5 witness: the legacy state "ask_biz_name" resets to ask_name. -/
theorem unknown_state_resets_witness :
    processState env0 7 wUnknown wUnknown.conv "hello" =
      (wUnknown, .ok { response := greetingPrompt, newState := "ask_name" }) :=
  (unknown_state_resets env0 7 wUnknown wUnknown.conv "hello" (by decide)).1

/-! ## C4: the expiry sweep is idempotent per conversation -/

/-- C4: an overdue awaiting_payment conversation not yet marked deleted is,
in one sweep, moved to `expired` with `site_deleted` set and customer status
'expired', and its one notification sent; any later sweep (at any time)
leaves it unchanged and sends nothing, so across arbitrarily many repeated
invocations no second notification ever goes out. -/
theorem cleanup_expired_idempotent (now : Nat) (w : World) (e : Nat)
    (hs : w.conv.state = "awaiting_payment") (he : w.conv.expires_at = some e)
    (hlt : e < now) (hd : w.conv.site_deleted = false) :
    cleanupExpired now w =
      ({ w with conv := { w.conv with state := "expired", site_deleted := true },
                cust := { w.cust with status := "expired" } }, true) ∧
    (∀ now2 : Nat, cleanupExpired now2 (cleanupExpired now w).1 = ((cleanupExpired now w).1, false)) ∧
    (∀ ts : List Nat, (sweepTimes ts (cleanupExpired now w).1).2 = 0) := by
  have helig : sweepEligible now w.conv = true := by
    simp [sweepEligible, hs, he, hd, hlt]
  have h1 : cleanupExpired now w =
      ({ w with conv := { w.conv with state := "expired", site_deleted := true },
                cust := { w.cust with status := "expired" } }, true) := by
    simp [cleanupExpired, helig]
  refine ⟨h1, ?_, ?_⟩
  · intro now2
    rw [h1]
    simp [cleanupExpired, sweepEligible]
  · intro ts
    rw [h1]
    rw [sweepTimes_deleted ts _ (by simp)]

/-- C4 witness: a concrete overdue conversation, swept at time 2000 and then
again twice more. -/
theorem cleanup_expired_idempotent_witness :
    cleanupExpired 2000 wAwaiting =
      ({ wAwaiting with
          conv := { wAwaiting.conv with state := "expired", site_deleted := true },
          cust := { wAwaiting.cust with status := "expired" } }, true) ∧
    (sweepTimes [3000, 4000] (cleanupExpired 2000 wAwaiting).1).2 = 0 := by
  have h := cleanup_expired_idempotent 2000 wAwaiting 1000 rfl rfl (by decide) rfl
  exact ⟨h.1, h.2.2 [3000, 4000]⟩
/-! ## C2: the ask_type step generates and persists the draft site -/

theorem generateSite_parts (env : Env) (w : World) (d : Conv) :
    (generateSite env w d).1.conv =
      { w.conv with
          site_subdomain := some (generateSubdomain (jsOr d.site_name "site")),
          site_html := some (generateSiteHTML (siteConfigOf d)) } ∧
    (generateSite env w d).1.cust = w.cust ∧
    (generateSite env w d).1.log = w.log := by
  cases hc : env.cfCreds with
  | false => simp [generateSite, hc]
  | true =>
    cases hd : env.deploy (generateSubdomain (jsOr d.site_name "site"))
        (generateSiteHTML (siteConfigOf d)) (siteConfigOf d).businessName with
    | none => simp [generateSite, hc, hd]
    | some url => simp [generateSite, hc, hd]

/-- C2: an inbound message in `ask_type` extracts and persists `site_type`,
generates the site from the re-read profile (persisting subdomain and HTML),
sets the customer to 'building', sets `expires_at` exactly 48 hours from now,
stores the site URL, replies with the URL and the payment link, and leaves
the conversation in `awaiting_payment`. -/
theorem ask_type_step_builds_site (env : Env) (now : Nat) (w : World) (body sb raw : String)
    (t : String) (wu : World) (url : String)
    (hs : w.conv.state = "ask_type")
    (hx : env.extract body "site_type" = .ok raw)
    (ht : t = jsTrim raw)
    (hwu : wu = updateConversation (smsPrep w body sb) "ask_type" [("site_type", t)])
    (hurl : url = (generateSite env wu wu.conv).2) :
    (smsStep env now w body sb).2 =
      "here's your site: " ++ url ++ "\n\n$9.99 to keep it live: " ++ paymentLink env ∧
    (smsStep env now w body sb).1.conv.state = "awaiting_payment" ∧
    (smsStep env now w body sb).1.conv.site_type = some t ∧
    (smsStep env now w body sb).1.conv.site_subdomain =
      some (generateSubdomain (jsOr wu.conv.site_name "site")) ∧
    (smsStep env now w body sb).1.conv.site_html =
      some (generateSiteHTML (siteConfigOf wu.conv)) ∧
    (smsStep env now w body sb).1.conv.site_url = some url ∧
    (smsStep env now w body sb).1.conv.expires_at = some (now + hours 48) ∧
    (smsStep env now w body sb).1.cust.status = "building" ∧
    (smsStep env now w body sb).1.cust.site_url = some url := by
  subst ht hwu hurl
  have hparts := generateSite_parts env
    (updateConversation (smsPrep w body sb) "ask_type" [("site_type", jsTrim raw)])
    (updateConversation (smsPrep w body sb) "ask_type" [("site_type", jsTrim raw)]).conv
  rcases hgs : generateSite env
      (updateConversation (smsPrep w body sb) "ask_type" [("site_type", jsTrim raw)])
      (updateConversation (smsPrep w body sb) "ask_type" [("site_type", jsTrim raw)]).conv
    with ⟨wg, url2⟩
  rw [hgs] at hparts
  simp only [] at hparts
  simp only [smsStep, processState, hs, extractField, hx, hgs]
  simp [updateConversation, applyField, smsPrep, hparts.1, hparts.2.1]
/-- C2 witness: "business" in ask_type for a concrete conversation named
"Bob Plumbing" ends awaiting_payment with a 48-hour expiry and a building
customer. -/
theorem ask_type_step_builds_site_witness :
    (smsStep envAskType 9 wAskType "business" "").1.conv.state = "awaiting_payment" ∧
    (smsStep envAskType 9 wAskType "business" "").1.conv.expires_at = some (9 + hours 48) ∧
    (smsStep envAskType 9 wAskType "business" "").1.cust.status = "building" := by
  have h := ask_type_step_builds_site envAskType 9 wAskType "business" "" "business" "business"
    (updateConversation (smsPrep wAskType "business" "") "ask_type" [("site_type", "business")])
    ((generateSite envAskType
        (updateConversation (smsPrep wAskType "business" "") "ask_type" [("site_type", "business")])
        (updateConversation (smsPrep wAskType "business" "") "ask_type"
          [("site_type", "business")]).conv).2)
    rfl rfl (by decide) rfl rfl
  exact ⟨h.2.1, h.2.2.2.2.2.2.1, h.2.2.2.2.2.2.2.1⟩
/-! ## Preservation lemmas for the webhook pipeline -/

theorem applyFields_preserve (ex : List (String × String)) (c : Conv) :
    (ex.foldl applyField c).state = c.state ∧ (ex.foldl applyField c).site_html = c.site_html := by
  induction ex generalizing c with
  | nil => exact ⟨rfl, rfl⟩
  | cons kv rest ih =>
    have h := ih (applyField c kv)
    have hk : (applyField c kv).state = c.state ∧ (applyField c kv).site_html = c.site_html := by
      unfold applyField
      split_ifs <;> simp
    simp only [List.foldl_cons]
    exact ⟨h.1.trans hk.1, h.2.trans hk.2⟩

theorem smsPrep_core (w : World) (b s : String) :
    (smsPrep w b s).conv.state = w.conv.state ∧
    (smsPrep w b s).conv.site_name = w.conv.site_name ∧
    (smsPrep w b s).conv.site_type = w.conv.site_type ∧
    (smsPrep w b s).conv.contact_phone = w.conv.contact_phone ∧
    (smsPrep w b s).conv.site_html = w.conv.site_html := by
  unfold smsPrep
  split_ifs <;> simp
theorem getSiteLayer3_parts (w : World) :
    ((getSiteLayer3 w).2).conv.state = w.conv.state ∧
    ((getSiteLayer3 w).2).conv.site_name = w.conv.site_name ∧
    ((getSiteLayer3 w).2).conv.site_type = w.conv.site_type ∧
    ((getSiteLayer3 w).2).conv.contact_phone = w.conv.contact_phone ∧
    ((getSiteLayer3 w).1 = none → (getSiteLayer3 w).2 = w) := by
  cases hu : optTruthy w.conv.site_url with
  | none => simp [getSiteLayer3, hu]
  | some url =>
    cases hc : cfSubdomain url with
    | some s =>
      cases hl : List.lookup s w.disk with
      | none => simp [getSiteLayer3, hu, hc, hl]
      | some html => simp [getSiteLayer3, hu, hc, hl]
    | none =>
      cases hloc : localSubdomain url with
      | none => simp [getSiteLayer3, hu, hc, hloc]
      | some s =>
        cases hl : List.lookup s w.disk with
        | none => simp [getSiteLayer3, hu, hc, hloc, hl]
        | some html => simp [getSiteLayer3, hu, hc, hloc, hl]

/-- The lazy backfill of getSiteHTML touches only `site_html`/`site_subdomain`;
and when nothing resolves the world is untouched. -/
theorem getSiteHTML_parts (w : World) :
    ((getSiteHTML w).2).conv.state = w.conv.state ∧
    ((getSiteHTML w).2).conv.site_name = w.conv.site_name ∧
    ((getSiteHTML w).2).conv.site_type = w.conv.site_type ∧
    ((getSiteHTML w).2).conv.contact_phone = w.conv.contact_phone ∧
    ((getSiteHTML w).1 = none → (getSiteHTML w).2 = w) := by
  cases h1 : optTruthy w.conv.site_html with
  | some h => simp [getSiteHTML, h1]
  | none =>
    cases h2 : optTruthy w.conv.site_subdomain with
    | none =>
      have h3 := getSiteLayer3_parts w
      simpa [getSiteHTML, h1, h2] using h3
    | some sub =>
      cases hl : List.lookup sub w.disk with
      | some html => simp [getSiteHTML, h1, h2, hl]
      | none =>
        have h3 := getSiteLayer3_parts w
        simpa [getSiteHTML, h1, h2, hl] using h3

theorem processActive_ok_newState (env : Env) (w : World) (convo : Conv) (m : String)
    (res : StepResult) (h : (processActive env w convo m).2 = .ok res) :
    res.newState = "active" := by
  simp only [processActive] at h
  cases hai : env.activeAI (buildActiveSystemPrompt (getSiteHTML w).1 convo.contact_phone)
      (buildMessages (getSiteHTML w).2.log m) with
  | error e =>
    simp only [hai] at h
    exact Except.noConfusion h
  | ok full =>
    simp only [hai] at h
    rcases hm : matchHtmlBlock full with _ | ⟨pre, mid, post⟩ <;>
      rcases hsd : (getSiteHTML w).1 with _ | sd <;>
      simp only [hm, hsd, Except.ok.injEq] at h <;> simp [← h]

theorem processActive_error_core (env : Env) (w : World) (convo : Conv) (m : String)
    (h : (processActive env w convo m).2 = .error ()) :
    (processActive env w convo m).1.conv.state = w.conv.state ∧
    (processActive env w convo m).1.conv.site_name = w.conv.site_name ∧
    (processActive env w convo m).1.conv.site_type = w.conv.site_type ∧
    (processActive env w convo m).1.conv.contact_phone = w.conv.contact_phone := by
  have hc := getSiteHTML_parts w
  simp only [processActive] at h ⊢
  cases hai : env.activeAI (buildActiveSystemPrompt (getSiteHTML w).1 convo.contact_phone)
      (buildMessages (getSiteHTML w).2.log m) with
  | error e =>
    simp only [hai]
    exact ⟨hc.1, hc.2.1, hc.2.2.1, hc.2.2.2.1⟩
  | ok full =>
    simp only [hai] at h
    rcases hm : matchHtmlBlock full with _ | ⟨pre, mid, post⟩ <;>
      rcases hsd : (getSiteHTML w).1 with _ | sd <;>
      simp only [hm, hsd] at h <;> exact Except.noConfusion h
/-- On a thrown extraction/AI error, processState leaves the conversation's
state and extracted fields exactly as they were. -/
theorem processState_error_core (env : Env) (now : Nat) (w : World) (convo : Conv) (m : String)
    (h : (processState env now w convo m).2 = .error ()) :
    (processState env now w convo m).1.conv.state = w.conv.state ∧
    (processState env now w convo m).1.conv.site_name = w.conv.site_name ∧
    (processState env now w convo m).1.conv.site_type = w.conv.site_type ∧
    (processState env now w convo m).1.conv.contact_phone = w.conv.contact_phone := by
  by_cases h1 : convo.state = "active"
  · have : processState env now w convo m = processActive env w convo m := by
      simp [processState, h1]
    rw [this] at h ⊢
    exact processActive_error_core env w convo m h
  · by_cases h4 : convo.state = "ask_name"
    · have hred : processState env now w convo m =
          (match extractField env m "site_name" with
           | .error e => (w, .error e)
           | .ok name =>
             (w, .ok { response := name ++ ". nice. what type of business is it?",
                       newState := "ask_type", extracted := [("site_name", name)] })) := by
        simp [processState, h1, h4]
      rw [hred] at h ⊢
      cases hx : extractField env m "site_name" with
      | error e => simp [hx]
      | ok v => simp only [hx] at h; exact Except.noConfusion h
    · by_cases h5 : convo.state = "ask_type"
      · cases hx : extractField env m "site_type" with
        | error e => simp [processState, h1, h4, h5, hx]
        | ok v =>
          have : (processState env now w convo m).2 = .ok
              { response := "here's your site: " ++
                  (generateSite env (updateConversation w "ask_type" [("site_type", v)])
                    (updateConversation w "ask_type" [("site_type", v)]).conv).2 ++
                  "\n\n$9.99 to keep it live: " ++ paymentLink env,
                newState := "awaiting_payment",
                extracted := [("site_url",
                  (generateSite env (updateConversation w "ask_type" [("site_type", v)])
                    (updateConversation w "ask_type" [("site_type", v)]).conv).2)] } := by
            simp [processState, h1, h4, h5, hx]
          rw [this] at h
          exact Except.noConfusion h
      · by_cases h2 : convo.state = "waitlist"
        · simp [processState, h1, h2] at h
        · by_cases h3 : convo.state = "greeting"
          · simp [processState, h1, h2, h3] at h
          · by_cases h6 : convo.state = "awaiting_payment"
            · by_cases hc : jsTrimLower m = "chowder"
              · simp [processState, h1, h2, h3, h4, h5, h6, hc] at h
              · by_cases hr : referralTest m
                · simp [processState, h1, h2, h3, h4, h5, h6, hc, hr] at h
                · simp [processState, h1, h2, h3, h4, h5, h6, hc, hr] at h
            · by_cases h7 : convo.state = "ask_password"
              · by_cases hc : jsTrimLower m = "chowder"
                · simp [processState, h1, h2, h3, h4, h5, h6, h7, hc] at h
                · simp [processState, h1, h2, h3, h4, h5, h6, h7, hc] at h
              · by_cases h8 : convo.state = "expired"
                · simp [processState, h1, h2, h3, h4, h5, h6, h7, h8] at h
                · simp [processState, h1, h2, h3, h4, h5, h6, h7, h8] at h
/-! ## C9: extraction/AI failures abort the step atomically -/

/-- C9: when the Extraction Service or AI call of a webhook step raises, the
user gets the single fixed apology and the conversation record's state and
extracted fields (site_name, site_type, contact_phone) are exactly what they
were before the step. -/
theorem extraction_failure_atomic (env : Env) (now : Nat) (w : World) (body sb : String)
    (herr : (processState env now (smsPrep w body sb) w.conv body).2 = .error ()) :
    (smsStep env now w body sb).2 = apologyReply ∧
    (smsStep env now w body sb).1.conv.state = w.conv.state ∧
    (smsStep env now w body sb).1.conv.site_name = w.conv.site_name ∧
    (smsStep env now w body sb).1.conv.site_type = w.conv.site_type ∧
    (smsStep env now w body sb).1.conv.contact_phone = w.conv.contact_phone := by
  have hcore := processState_error_core env now (smsPrep w body sb) w.conv body herr
  have hprep := smsPrep_core w body sb
  rcases hp : processState env now (smsPrep w body sb) w.conv body with ⟨w2, ex⟩
  cases ex with
  | ok res =>
    rw [hp] at herr
    exact Except.noConfusion herr
  | error e =>
    have hstep : smsStep env now w body sb = (w2, apologyReply) := by
      simp [smsStep, hp]
    rw [hp] at hcore
    simp only [] at hcore
    rw [hstep]
    exact ⟨rfl, hcore.1.trans hprep.1, hcore.2.1.trans hprep.2.1,
      hcore.2.2.1.trans hprep.2.2.1, hcore.2.2.2.trans hprep.2.2.2.1⟩

/-- C9 witness: a failing extraction service in ask_name yields the apology
and no change to the conversation record. -/
theorem extraction_failure_atomic_witness :
    (smsStep envFail 3 wNameErr "hi" "").2 = apologyReply ∧
    (smsStep envFail 3 wNameErr "hi" "").1.conv.state = "ask_name" :=
  ⟨(extraction_failure_atomic envFail 3 wNameErr "hi" "" rfl).1,
   (extraction_failure_atomic envFail 3 wNameErr "hi" "" rfl).2.1⟩
/-! ## C10: marker pair present but no resolvable site -/

theorem splitFirst_some_decomp (pat : List Char) (s a r : List Char)
    (h : splitFirst pat s = some (a, r)) : s = a ++ pat ++ r := by
  induction s generalizing a with
  | nil => simp [splitFirst] at h
  | cons c t ih =>
    rw [splitFirst] at h
    by_cases hp : pat.isPrefixOf (c :: t)
    · simp only [hp, if_true] at h
      obtain ⟨u, hu⟩ := List.isPrefixOf_iff_prefix.mp hp
      obtain ⟨ha, hr⟩ := Prod.mk.injEq .. ▸ Option.some.injEq .. ▸ h
      subst ha
      rw [← hr, ← hu, List.drop_left]
      simp
    · simp only [hp, if_false, Bool.false_eq_true] at h
      rcases hs : splitFirst pat t with _ | ⟨p, r2⟩ <;> simp only [hs] at h
      · exact Option.noConfusion h
      · obtain ⟨ha, hr⟩ := Prod.mk.injEq .. ▸ Option.some.injEq .. ▸ h
        subst ha hr
        rw [ih p hs]
        simp

theorem matchHtmlBlock_some_decomp (s pre mid post : String)
    (h : matchHtmlBlock s = some (pre, mid, post)) :
    s.data = pre.data ++ startMarker ++ mid.data ++ endMarker ++ post.data := by
  unfold matchHtmlBlock at h
  rcases h1 : splitFirst startMarker s.data with _ | ⟨p1, rest⟩ <;> simp only [h1] at h
  · exact Option.noConfusion h
  · rcases h2 : splitFirst endMarker rest with _ | ⟨m1, p2⟩ <;> simp only [h2] at h
    · exact Option.noConfusion h
    · have d1 := splitFirst_some_decomp startMarker s.data p1 rest h1
      have d2 := splitFirst_some_decomp endMarker rest m1 p2 h2
      simp only [Option.some.injEq, Prod.mk.injEq] at h
      obtain ⟨hpre, hmid, hpost⟩ := h
      rw [d1, d2, ← hpre, ← hmid, ← hpost]
      simp

/-- C10: in active mode, when the assistant output carries a marker pair but
no site document resolves, the step leaves the world untouched (no
persistence, no redeploy) and returns the raw assistant text — markers and
enclosed HTML included — as the reply, staying active. -/
theorem active_no_site_replies_verbatim (env : Env) (w : World) (convo : Conv)
    (message full pre mid post : String)
    (hsd : (getSiteHTML w).1 = none)
    (hai : env.activeAI (buildActiveSystemPrompt none convo.contact_phone)
        (buildMessages w.log message) = .ok full)
    (hm : matchHtmlBlock full = some (pre, mid, post)) :
    processActive env w convo message =
      (w, .ok { response := full, newState := "active" }) ∧
    full.data = pre.data ++ startMarker ++ mid.data ++ endMarker ++ post.data := by
  have hw := (getSiteHTML_parts w).2.2.2.2 hsd
  refine ⟨?_, matchHtmlBlock_some_decomp full pre mid post hm⟩
  simp only [processActive, hsd, hw, hai, hm]

/-- C10 witness: a concrete active conversation with no site artifacts gets
the marker-bearing AI text back verbatim. -/
theorem active_no_site_replies_verbatim_witness :
    processActive envC10 wActiveNoSite wActiveNoSite.conv "hi" =
      (wActiveNoSite, .ok { response := c10Full, newState := "active" }) :=
  (active_no_site_replies_verbatim envC10 wActiveNoSite wActiveNoSite.conv "hi" c10Full
    "sure " "<html>z</html>" " done" rfl rfl (by decide)).1
/-! ## C8: where siteHtml can be non-null -/

/-- The only processState outcome whose next state is 'waitlist' is the
waitlist branch itself, which writes nothing. -/
theorem processState_ok_waitlist (env : Env) (now : Nat) (wp : World) (convo : Conv)
    (m : String) (w2 : World) (res : StepResult)
    (h : processState env now wp convo m = (w2, .ok res))
    (hws : res.newState = "waitlist") :
    convo.state = "waitlist" ∧ w2 = wp := by
  by_cases h1 : convo.state = "active"
  · have hred : processActive env wp convo m = (w2, .ok res) := by
      simpa [processState, h1] using h
    have := processActive_ok_newState env wp convo m res (by rw [hred])
    rw [this] at hws
    exact absurd hws (by decide)
  · by_cases h2 : convo.state = "waitlist"
    · refine ⟨h2, ?_⟩
      simp only [processState, h1, h2] at h
      simp at h
      exact h.1.symm
    · exfalso
      by_cases h3 : convo.state = "greeting"
      · simp [processState, h1, h2, h3, Prod.mk.injEq] at h
        rw [← h.2] at hws
        simp at hws
      · by_cases h4 : convo.state = "ask_name"
        · rcases hx : extractField env m "site_name" with e | v <;>
            simp [processState, h1, h2, h3, h4, hx, Prod.mk.injEq] at h
          rw [← h.2] at hws
          simp at hws
        · by_cases h5 : convo.state = "ask_type"
          · rcases hx : extractField env m "site_type" with e | v <;>
              simp [processState, h1, h2, h3, h4, h5, hx, Prod.mk.injEq] at h
            rw [← h.2] at hws
            simp at hws
          · by_cases h6 : convo.state = "awaiting_payment"
            · by_cases hc : jsTrimLower m = "chowder"
              · simp [processState, h1, h2, h3, h4, h5, h6, hc, Prod.mk.injEq] at h
                rw [← h.2] at hws
                simp at hws
              · by_cases hr : referralTest m <;>
                  simp [processState, h1, h2, h3, h4, h5, h6, hc, hr, Prod.mk.injEq] at h <;>
                  [skip; skip] <;> rw [← h.2] at hws <;> simp at hws
            · by_cases h7 : convo.state = "ask_password"
              · by_cases hc : jsTrimLower m = "chowder" <;>
                  simp [processState, h1, h2, h3, h4, h5, h6, h7, hc, Prod.mk.injEq] at h <;>
                  rw [← h.2] at hws <;> simp at hws
              · by_cases h8 : convo.state = "expired" <;>
                  simp [processState, h1, h2, h3, h4, h5, h6, h7, h8, Prod.mk.injEq] at h <;>
                  rw [← h.2] at hws <;> simp at hws
/-- C8 (amended): the site-document/state invariant that every modeled
operation actually preserves: a conversation still in the initial 'waitlist'
state has no `site_html`. (Site generation happens before payment, and
post-expiry re-entry keeps the old document through the onboarding states,
so no stronger state bound than "not waitlist" survives all operations.) -/
theorem waitlist_no_html_preserved (env : Env) (now : Nat) (w : World) (body sb phone : String)
    (hinv : WaitlistNoHtml w) :
    WaitlistNoHtml (smsStep env now w body sb).1 ∧
    WaitlistNoHtml (cleanupExpired now w).1 ∧
    WaitlistNoHtml (stripeActivate now w) ∧
    WaitlistNoHtml (adminBypass now w) ∧
    WaitlistNoHtml (adminReset w) ∧
    WaitlistNoHtml (adminActivate w) ∧
    WaitlistNoHtml (freshWorld phone) := by
  refine ⟨?_, ?_, ?_, ?_, ?_, ?_, ?_⟩
  · intro hst
    rcases hp : processState env now (smsPrep w body sb) w.conv body with ⟨w2, ex⟩
    cases ex with
    | error e =>
      cases e
      exfalso
      have hstep : (smsStep env now w body sb).1 = w2 := by simp [smsStep, hp]
      have hcore := processState_error_core env now (smsPrep w body sb) w.conv body (by rw [hp])
      rw [hp] at hcore
      simp only [] at hcore
      have hw : w.conv.state = "waitlist" := by
        rw [← (smsPrep_core w body sb).1, ← hcore.1, ← hstep]
        exact hst
      have : processState env now (smsPrep w body sb) w.conv body =
          ((smsPrep w body sb),
           .ok { response := "you're on the list. marco will be right with you — your dream site is just a few texts away.",
                 newState := "waitlist" }) := by
        simp [processState, hw]
      rw [hp] at this
      simp at this
    | ok res =>
      have hstep : (smsStep env now w body sb).1 =
          { updateConversation w2 res.newState res.extracted with
              log := (updateConversation w2 res.newState res.extracted).log ++ [(false, res.response)] } := by
        simp [smsStep, hp]
      have hfields := applyFields_preserve res.extracted { w2.conv with state := res.newState }
      have hstate : (smsStep env now w body sb).1.conv.state = res.newState := by
        rw [hstep]
        exact hfields.1
      have hhtml : (smsStep env now w body sb).1.conv.site_html = w2.conv.site_html := by
        rw [hstep]
        exact hfields.2
      have hws : res.newState = "waitlist" := by rw [← hstate]; exact hst
      obtain ⟨hcs, hw2⟩ := processState_ok_waitlist env now (smsPrep w body sb) w.conv body w2 res hp hws
      rw [hhtml, hw2, (smsPrep_core w body sb).2.2.2.2]
      exact hinv hcs
  · intro hst
    by_cases he : sweepEligible now w.conv = true
    · exfalso
      simp [cleanupExpired, he] at hst
    · simp only [cleanupExpired, Bool.not_eq_true] at *
      simp [he] at hst ⊢
      exact hinv hst
  · intro hst
    simp [stripeActivate] at hst
  · intro hst
    simp [adminBypass] at hst
  · intro _
    simp [adminReset]
  · intro hst
    simp [adminActivate] at hst
  · intro _
    rfl

/-- C8 witness: a fresh waitlist conversation stepped once still satisfies
the preserved invariant (its state stays waitlist, its site_html stays null). -/
theorem waitlist_no_html_preserved_witness :
    (smsStep env0 1 (freshWorld "+15550003333") "yo" "").1.conv.site_html = none :=
  ((waitlist_no_html_preserved env0 1 (freshWorld "+15550003333") "yo" "" "+1"
      (fun _ => rfl)).1) (by decide)

/-- C8 counterexample: reachable by modeled operations alone (fresh record,
admin activate, two onboarding messages), a conversation holds a generated
`site_html` while its state is `awaiting_payment` — not `active` or any
later lifecycle point as the claim demands. -/
theorem site_html_before_active_counterexample :
    ((smsStep envOnboard 12
        (smsStep envOnboard 11 (adminActivate (freshWorld "+15550002222")) "bobs plumbing" "").1
        "its a plumbing business" "").1.conv.site_html.isSome = true) ∧
    ((smsStep envOnboard 12
        (smsStep envOnboard 11 (adminActivate (freshWorld "+15550002222")) "bobs plumbing" "").1
        "its a plumbing business" "").1.conv.state = "awaiting_payment") ∧
    ¬ activeOrLater "awaiting_payment" := by
  refine ⟨by decide, by decide, ?_⟩
  intro h
  rcases h with h | h <;> simp at h
/-! ## C7: template selection by keyword score -/

theorem le_foldr_max (l : List Nat) (a : Nat) (h : a ∈ l) : a ≤ l.foldr max 0 := by
  induction l with
  | nil => cases h
  | cons b t ih =>
    rcases List.mem_cons.mp h with rfl | ht
    · exact Nat.le_max_left _ _
    · exact Nat.le_trans (ih ht) (Nat.le_max_right _ _)

theorem selLoop_const (txt : String) (ts : List Template) (b : String) (h : Nat)
    (hall : ∀ t ∈ ts, scoreTemplate txt t ≤ h) : selLoop txt ts b h = b := by
  induction ts generalizing b h with
  | nil => rfl
  | cons t ts ih =>
    have hle := hall t (List.mem_cons_self t ts)
    rw [selLoop, if_neg (by omega)]
    exact ih b h (fun u hu => hall u (List.mem_cons_of_mem t hu))

theorem selLoop_first_max (txt : String) (ts : List Template) (b : String) (h m : Nat)
    (tt : Template) (hlt : h < m) (hall : ∀ t ∈ ts, scoreTemplate txt t ≤ m)
    (hfind : ts.find? (fun t => scoreTemplate txt t == m) = some tt) :
    selLoop txt ts b h = tt.id := by
  induction ts generalizing b h with
  | nil => exact Option.noConfusion hfind
  | cons t ts ih =>
    by_cases hm : scoreTemplate txt t = m
    · rw [List.find?_cons_of_pos _ (by simp [hm])] at hfind
      obtain rfl : t = tt := Option.some.injEq .. ▸ hfind
      rw [selLoop, if_pos (by omega)]
      exact selLoop_const txt ts t.id (scoreTemplate txt t)
        (fun u hu => hm ▸ hall u (List.mem_cons_of_mem t hu))
    · rw [List.find?_cons_of_neg _ (by simp [hm])] at hfind
      have hle := hall t (List.mem_cons_self t ts)
      have htail := fun u hu => hall u (List.mem_cons_of_mem t hu)
      rw [selLoop]
      by_cases hup : h < scoreTemplate txt t
      · rw [if_pos hup]
        exact ih t.id (scoreTemplate txt t) (by omega) htail hfind
      · rw [if_neg hup]
        exact ih b h hlt htail hfind

/-- C7 (amended): empty or absent services select 'general'; with a nonempty
list, if no template keyword matches at all (highest count 0) the result is
'general' (the initialization, which is the last-registered template); and
when the highest count is positive the first-registered template attaining it
wins. -/
theorem select_template_scoring (services : Option (List String)) :
    ((services = none ∨ services = some []) → selectTemplate services = "general") ∧
    (∀ l : List String, services = some l → l ≠ [] →
      ((maxScore (serviceTextOf l) = 0 → selectTemplate services = "general") ∧
       (∀ tt : Template, 0 < maxScore (serviceTextOf l) →
         templates.find? (fun t => scoreTemplate (serviceTextOf l) t == maxScore (serviceTextOf l)) =
           some tt →
         selectTemplate services = tt.id))) := by
  constructor
  · rintro (rfl | rfl) <;> simp [selectTemplate]
  · rintro l rfl hne
    have hemp : l.isEmpty = false := by
      cases l
      · exact absurd rfl hne
      · rfl
    have hall : ∀ t ∈ templates, scoreTemplate (serviceTextOf l) t ≤ maxScore (serviceTextOf l) :=
      fun t ht => le_foldr_max _ _ (List.mem_map_of_mem _ ht)
    constructor
    · intro hm
      rw [selectTemplate, hemp]
      simp only [Bool.false_eq_true, if_false]
      exact selLoop_const _ _ _ _ (fun t ht => by rw [← hm]; exact hall t ht)
    · intro tt hm hfind
      rw [selectTemplate, hemp]
      simp only [Bool.false_eq_true, if_false]
      exact selLoop_first_max _ _ _ _ _ tt hm hall hfind

/-- C7 witness: "pipe leak" scores 2 on the plumbing keywords, beating every
other template, and plumbing is selected. -/
theorem select_template_scoring_witness :
    selectTemplate (some ["pipe leak"]) = "plumbing" :=
  ((select_template_scoring (some ["pipe leak"])).2 ["pipe leak"] rfl (by decide)).2
    plumbingTemplate (by decide) (by decide)

/-- C7 counterexample: with services ["xyz"] every template (including
'general') ties at the highest count 0; the first-registered of the tied
templates is 'handyman', but the code returns 'general'. -/
theorem select_template_tie_counterexample :
    selectTemplate (some ["xyz"]) = "general" ∧
    (∀ t ∈ templates, scoreTemplate (serviceTextOf ["xyz"]) t = 0) ∧
    templates.head? = some handymanTemplate ∧
    handymanTemplate.id = "handyman" ∧
    ("general" : String) ≠ "handyman" := by
  refine ⟨by decide, by decide, rfl, rfl, by decide⟩
/-! ## C6: the subdomain slug -/

theorem collapseRuns_mem (p : Char → Bool) (rep : Char) (l : List Char) :
    ∀ (b : Bool) (c : Char), c ∈ collapseRuns p rep l b → c = rep ∨ (c ∈ l ∧ p c = false) := by
  induction l with
  | nil => intro b c h; simp [collapseRuns] at h
  | cons d t ih =>
    intro b c h
    by_cases hd : p d = true
    · rw [collapseRuns, if_pos hd] at h
      cases b with
      | true =>
        rcases ih true c h with h1 | ⟨h1, h2⟩
        · exact Or.inl h1
        · exact Or.inr ⟨List.mem_cons_of_mem d h1, h2⟩
      | false =>
        rcases List.mem_cons.mp h with rfl | h1
        · exact Or.inl rfl
        · rcases ih true c h1 with h2 | ⟨h2, h3⟩
          · exact Or.inl h2
          · exact Or.inr ⟨List.mem_cons_of_mem d h2, h3⟩
    · rw [collapseRuns, if_neg hd] at h
      rcases List.mem_cons.mp h with rfl | h1
      · exact Or.inr ⟨List.mem_cons_self c t, Bool.not_eq_true _ ▸ hd⟩
      · rcases ih false c h1 with h2 | ⟨h2, h3⟩
        · exact Or.inl h2
        · exact Or.inr ⟨List.mem_cons_of_mem d h2, h3⟩

theorem collapseRuns_id (p : Char → Bool) (rep : Char) (l : List Char)
    (hall : ∀ c ∈ l, p c = false) : ∀ b, collapseRuns p rep l b = l := by
  induction l with
  | nil => intro b; rfl
  | cons d t ih =>
    intro b
    have hd : p d = false := hall d (List.mem_cons_self d t)
    rw [collapseRuns, if_neg (by simp [hd])]
    rw [ih (fun c hc => hall c (List.mem_cons_of_mem d hc)) false]
theorem collapseHy_shape (l : List Char) :
    (∀ b, ¬ ['-', '-'] <:+: collapseRuns isHy '-' l b) ∧
    (collapseRuns isHy '-' l true).head? ≠ some '-' := by
  induction l with
  | nil =>
    refine ⟨fun b => ?_, by simp [collapseRuns]⟩
    simp [collapseRuns]
  | cons d t ih =>
    by_cases hd : isHy d = true
    · have hd' : d = '-' := by simpa [isHy] using hd
      subst hd'
      constructor
      · intro b
        cases b with
        | true =>
          rw [collapseRuns, if_pos hd]
          exact ih.1 true
        | false =>
          rw [collapseRuns, if_pos hd]
          intro hinf
          rcases List.infix_cons_iff.mp hinf with hpre | hinf2
          · obtain ⟨u, hu⟩ := hpre
            simp only [List.cons_append, List.cons.injEq] at hu
            have : (collapseRuns isHy '-' t true).head? = some '-' := by
              rw [← hu.2]
              simp
            exact ih.2 this
          · exact ih.1 true hinf2
      · rw [collapseRuns, if_pos hd]
        exact ih.2
    · have hd' : d ≠ '-' := by simpa [isHy] using hd
      constructor
      · intro b
        rw [collapseRuns, if_neg (by simp [hd])]
        intro hinf
        rcases List.infix_cons_iff.mp hinf with hpre | hinf2
        · obtain ⟨u, hu⟩ := hpre
          simp only [List.cons_append, List.cons.injEq] at hu
          exact hd' hu.1.symm
        · exact ih.1 false hinf2
      · rw [collapseRuns, if_neg (by simp [hd])]
        simpa using fun h => hd' h

theorem collapseHy_id (l : List Char) :
    ∀ b, ¬ ['-', '-'] <:+: l → (b = true → l.head? ≠ some '-') →
    collapseRuns isHy '-' l b = l := by
  induction l with
  | nil => intro b _ _; rfl
  | cons d t ih =>
    intro b hnd hhd
    by_cases hd : isHy d = true
    · have hd' : d = '-' := by simpa [isHy] using hd
      subst hd'
      cases b with
      | true => exact absurd (rfl : (('-' : Char) :: t).head? = some '-') (hhd rfl)
      | false =>
        rw [collapseRuns, if_pos hd]
        have hndt : ¬ ['-', '-'] <:+: t := fun h => hnd (List.infix_cons h)
        have hht : t.head? ≠ some '-' := by
          intro hh
          cases t with
          | nil => simp at hh
          | cons e t2 =>
            simp at hh
            subst hh
            exact hnd ⟨[], t2, rfl⟩
        have hrec := ih true hndt (fun _ => hht)
        simp [hrec]
    · rw [collapseRuns, if_neg (by simp [hd])]
      have hndt : ¬ ['-', '-'] <:+: t := fun h => hnd (List.infix_cons h)
      rw [ih false hndt (by simp)]

theorem stripLeadHyphen_subset (l : List Char) (c : Char) (h : c ∈ stripLeadHyphen l) : c ∈ l := by
  unfold stripLeadHyphen at h
  split at h
  · exact List.mem_cons_of_mem _ h
  · exact h

theorem stripLeadHyphen_length (l : List Char) : (stripLeadHyphen l).length ≤ l.length := by
  unfold stripLeadHyphen
  split <;> simp

theorem stripLeadHyphen_infix_mono (l pat : List Char) (h : pat <:+: stripLeadHyphen l) : pat <:+: l := by
  unfold stripLeadHyphen at h
  split at h
  · exact List.infix_cons h
  · exact h

theorem stripLeadHyphen_head (l : List Char) (hnd : ¬ ['-', '-'] <:+: l) :
    (stripLeadHyphen l).head? ≠ some '-' := by
  unfold stripLeadHyphen
  split
  · rename_i t
    intro hh
    cases t with
    | nil => simp at hh
    | cons e t2 =>
      simp at hh
      subst hh
      exact hnd ⟨[], t2, rfl⟩
  · rename_i hne
    intro hh
    cases l with
    | nil => simp at hh
    | cons e t2 =>
      simp at hh
      exact hne t2 (by rw [hh])

theorem stripLeadHyphen_getLast (l : List Char) (h : l.getLast? ≠ some '-') :
    (stripLeadHyphen l).getLast? ≠ some '-' := by
  unfold stripLeadHyphen
  split
  · rename_i t
    cases t with
    | nil => simpa using h
    | cons e t2 => rwa [show ('-' :: e :: t2).getLast? = (e :: t2).getLast? from List.getLast?_cons_cons] at h
  · exact h

theorem stripLeadHyphen_id (l : List Char) (h : l.head? ≠ some '-') : stripLeadHyphen l = l := by
  unfold stripLeadHyphen
  split
  · rename_i t
    exact absurd (rfl : (('-' : Char) :: t).head? = some '-') h
  · rfl
theorem slug_char_props (c : Char)
    (h : ('a' ≤ c ∧ c ≤ 'z') ∨ ('0' ≤ c ∧ c ≤ '9') ∨ c = '-') :
    jsLowerChar c = c ∧ keepChar c = true ∧ isJsWs c = false := by
  refine ⟨?_, ?_, ?_⟩
  · unfold jsLowerChar
    rw [if_neg]
    rintro ⟨hA, hZ⟩
    rcases h with ⟨h1, h2⟩ | ⟨h1, h2⟩ | rfl
    · exact absurd (le_trans h1 hZ) (by decide)
    · exact absurd (le_trans hA h2) (by decide)
    · exact absurd hA (by decide)
  · rcases h with ⟨h1, h2⟩ | ⟨h1, h2⟩ | rfl
    · simp [keepChar, h1, h2]
    · simp [keepChar, h1, h2]
    · simp [keepChar]
  · cases hws : isJsWs c
    · rfl
    · exfalso
      simp only [isJsWs, Bool.or_eq_true, beq_iff_eq] at hws
      rcases h with ⟨h1, h2⟩ | ⟨h1, h2⟩ | rfl
      · rcases hws with ((((rfl | rfl) | rfl) | rfl) | rfl) | rfl <;>
          first | exact absurd h1 (by decide) | exact absurd h2 (by decide)
      · rcases hws with ((((rfl | rfl) | rfl) | rfl) | rfl) | rfl <;>
          first | exact absurd h1 (by decide) | exact absurd h2 (by decide)
      · exact absurd hws (by decide)

theorem subdomainSlug_props (x : List Char) :
    (∀ c ∈ subdomainSlug x, ('a' ≤ c ∧ c ≤ 'z') ∨ ('0' ≤ c ∧ c ≤ '9') ∨ c = '-') ∧
    ¬ ['-', '-'] <:+: subdomainSlug x ∧
    (subdomainSlug x).head? ≠ some '-' ∧
    (subdomainSlug x).getLast? ≠ some '-' ∧
    (subdomainSlug x).length ≤ 50 := by
  have hy : subdomainSlug x =
      (stripLeadHyphen (stripLeadHyphen ((collapseRuns isHy '-'
        (collapseRuns isJsWs '-' ((x.map jsLowerChar).filter keepChar) false) false).take 50)).reverse).reverse := rfl
  have hndCollapsed := (collapseHy_shape (collapseRuns isJsWs '-' ((x.map jsLowerChar).filter keepChar) false)).1 false
  have hpreCap : ((collapseRuns isHy '-' (collapseRuns isJsWs '-' ((x.map jsLowerChar).filter keepChar) false) false).take 50) <+:
      collapseRuns isHy '-' (collapseRuns isJsWs '-' ((x.map jsLowerChar).filter keepChar) false) false :=
    List.take_prefix _ _
  have hndCapped : ¬ ['-', '-'] <:+:
      ((collapseRuns isHy '-' (collapseRuns isJsWs '-' ((x.map jsLowerChar).filter keepChar) false) false).take 50) :=
    fun h => hndCollapsed (h.trans hpreCap.isInfix)
  have hndS1 : ¬ ['-', '-'] <:+: stripLeadHyphen
      ((collapseRuns isHy '-' (collapseRuns isJsWs '-' ((x.map jsLowerChar).filter keepChar) false) false).take 50) :=
    fun h => hndCapped (stripLeadHyphen_infix_mono _ _ h)
  have hndS1r : ¬ ['-', '-'] <:+: (stripLeadHyphen
      ((collapseRuns isHy '-' (collapseRuns isJsWs '-' ((x.map jsLowerChar).filter keepChar) false) false).take 50)).reverse := by
    intro h
    rw [show (['-', '-'] : List Char) = (['-', '-'] : List Char).reverse from rfl] at h
    exact hndS1 (List.reverse_infix.mp h)
  have hndS2 : ¬ ['-', '-'] <:+: stripLeadHyphen (stripLeadHyphen
      ((collapseRuns isHy '-' (collapseRuns isJsWs '-' ((x.map jsLowerChar).filter keepChar) false) false).take 50)).reverse :=
    fun h => hndS1r (stripLeadHyphen_infix_mono _ _ h)
  have hndFinal : ¬ ['-', '-'] <:+: subdomainSlug x := by
    rw [hy]
    intro h
    rw [show (['-', '-'] : List Char) = (['-', '-'] : List Char).reverse from rfl] at h
    exact hndS2 (List.reverse_infix.mp h)
  refine ⟨?_, hndFinal, ?_, ?_, ?_⟩
  · intro c hc
    rw [hy] at hc
    rw [List.mem_reverse] at hc
    have hc2 := stripLeadHyphen_subset _ _ hc
    rw [List.mem_reverse] at hc2
    have hc3 := stripLeadHyphen_subset _ _ hc2
    have hc4 := List.take_subset _ _ hc3
    rcases collapseRuns_mem isHy '-' _ false c hc4 with rfl | ⟨hc5, hhy⟩
    · exact Or.inr (Or.inr rfl)
    · have hne : c ≠ '-' := by simpa [isHy] using hhy
      rcases collapseRuns_mem isJsWs '-' _ false c hc5 with rfl | ⟨hc6, hws⟩
      · exact absurd rfl hne
      · have hkc := List.mem_filter.mp hc6
        have hk := hkc.2
        simp only [keepChar, Bool.or_eq_true, Bool.and_eq_true, decide_eq_true_eq, beq_iff_eq] at hk
        rcases hk with ((⟨h1, h2⟩ | ⟨h1, h2⟩) | hw) | rfl
        · exact Or.inl ⟨h1, h2⟩
        · exact Or.inr (Or.inl ⟨h1, h2⟩)
        · rw [hw] at hws
          exact absurd hws (by simp)
        · exact absurd rfl hne
  · rw [hy, List.head?_reverse]
    exact stripLeadHyphen_getLast _ (by rw [List.getLast?_reverse]; exact stripLeadHyphen_head _ hndCapped)
  · rw [hy, List.getLast?_reverse]
    exact stripLeadHyphen_head _ hndS1r
  · rw [hy, List.length_reverse]
    calc (stripLeadHyphen (stripLeadHyphen ((collapseRuns isHy '-' (collapseRuns isJsWs '-' ((x.map jsLowerChar).filter keepChar) false) false).take 50)).reverse).length
        ≤ (stripLeadHyphen ((collapseRuns isHy '-' (collapseRuns isJsWs '-' ((x.map jsLowerChar).filter keepChar) false) false).take 50)).reverse.length := stripLeadHyphen_length _
      _ = (stripLeadHyphen ((collapseRuns isHy '-' (collapseRuns isJsWs '-' ((x.map jsLowerChar).filter keepChar) false) false).take 50)).length := List.length_reverse _
      _ ≤ ((collapseRuns isHy '-' (collapseRuns isJsWs '-' ((x.map jsLowerChar).filter keepChar) false) false).take 50).length := stripLeadHyphen_length _
      _ ≤ 50 := List.length_take_le _ _
theorem subdomainSlug_idem (x : List Char) :
    subdomainSlug (subdomainSlug x) = subdomainSlug x := by
  obtain ⟨hchar, hnd, hhead, hlast, hlen⟩ := subdomainSlug_props x
  have hlow : (subdomainSlug x).map jsLowerChar = subdomainSlug x := by
    have h2 : (subdomainSlug x).map jsLowerChar = (subdomainSlug x).map id :=
      List.map_congr_left (fun c hc => (slug_char_props c (hchar c hc)).1)
    rw [h2, List.map_id]
  have hkeep : (subdomainSlug x).filter keepChar = subdomainSlug x :=
    List.filter_eq_self.mpr (fun c hc => (slug_char_props c (hchar c hc)).2.1)
  have hws : collapseRuns isJsWs '-' (subdomainSlug x) false = subdomainSlug x :=
    collapseRuns_id isJsWs '-' _ (fun c hc => (slug_char_props c (hchar c hc)).2.2) false
  have hhy : collapseRuns isHy '-' (subdomainSlug x) false = subdomainSlug x :=
    collapseHy_id _ false hnd (by simp)
  have htake : (subdomainSlug x).take 50 = subdomainSlug x := List.take_of_length_le hlen
  have hs1 : stripLeadHyphen (subdomainSlug x) = subdomainSlug x := stripLeadHyphen_id _ hhead
  have hs2 : stripLeadHyphen (subdomainSlug x).reverse = (subdomainSlug x).reverse :=
    stripLeadHyphen_id _ (by rw [List.head?_reverse]; exact hlast)
  conv_lhs => rw [subdomainSlug]
  rw [hlow, hkeep, hws, hhy, htake, hs1, hs2, List.reverse_reverse]

/-- C6: generateSubdomain is a pure function, idempotent on its own output,
and its result uses only lowercase letters, digits and hyphens, with no
leading, trailing or repeated hyphen, within the 50-character cap. -/
theorem generate_subdomain_properties (s : String) :
    generateSubdomain (generateSubdomain s) = generateSubdomain s ∧
    (∀ c ∈ (generateSubdomain s).data, ('a' ≤ c ∧ c ≤ 'z') ∨ ('0' ≤ c ∧ c ≤ '9') ∨ c = '-') ∧
    (generateSubdomain s).data.head? ≠ some '-' ∧
    (generateSubdomain s).data.getLast? ≠ some '-' ∧
    ¬ ['-', '-'] <:+: (generateSubdomain s).data ∧
    (generateSubdomain s).data.length ≤ 50 := by
  have hp := subdomainSlug_props s.data
  exact ⟨congrArg String.mk (subdomainSlug_idem s.data), hp.1, hp.2.2.1, hp.2.2.2.1,
    hp.2.1, hp.2.2.2.2⟩

/-- C6 witness: a concrete messy business name slugs to a stable value. -/
theorem generate_subdomain_properties_witness :
    generateSubdomain (generateSubdomain "  Bob!!  Plumbing  Co  ") =
      generateSubdomain "  Bob!!  Plumbing  Co  " ∧
    (('a' ≤ 'b' ∧ 'b' ≤ 'z') ∨ ('0' ≤ 'b' ∧ 'b' ≤ '9') ∨ 'b' = '-') ∧
    (generateSubdomain "  Bob!!  Plumbing  Co  ").data.length ≤ 50 := by
  have h := generate_subdomain_properties "  Bob!!  Plumbing  Co  "
  exact ⟨h.1, h.2.1 'b' (by decide), h.2.2.2.2.2⟩
/-! ## C3: the marker-stripping round trip -/

theorem occ_ge_one (pat : List Char) (hp : pat ≠ []) :
    ∀ (x y : List Char), 1 ≤ countOccur pat (x ++ (pat ++ y)) := by
  intro x
  induction x with
  | nil =>
    intro y
    cases pat with
    | nil => exact absurd rfl hp
    | cons p pt =>
      rw [List.nil_append, List.cons_append, countOccur,
        if_pos (List.isPrefixOf_iff_prefix.mpr (by rw [← List.cons_append]; exact List.prefix_append _ _))]
      omega
  | cons d x2 ih =>
    intro y
    rw [List.cons_append, countOccur]
    have := ih y
    omega

theorem occ_suffix_le (pat : List Char) (u t : List Char) :
    countOccur pat t ≤ countOccur pat (u ++ t) := by
  induction u with
  | nil => simp
  | cons d u2 ih =>
    rw [List.cons_append, countOccur]
    omega

theorem occ_insert (pat : List Char) (hp : pat ≠ []) :
    ∀ (x v : List Char), countOccur pat v + 1 ≤ countOccur pat (x ++ (pat ++ v)) := by
  intro x
  induction x with
  | nil =>
    intro v
    cases pat with
    | nil => exact absurd rfl hp
    | cons p pt =>
      rw [List.nil_append, List.cons_append, countOccur,
        if_pos (List.isPrefixOf_iff_prefix.mpr (by rw [← List.cons_append]; exact List.prefix_append _ _))]
      have := occ_suffix_le (p :: pt) pt v
      omega
  | cons d x2 ih =>
    intro v
    rw [List.cons_append, countOccur]
    have := ih v
    omega

theorem splitFirst_of_unique (pat : List Char) (hp : pat ≠ []) :
    ∀ (a r s : List Char), s = a ++ (pat ++ r) → countOccur pat s ≤ 1 →
    splitFirst pat s = some (a, r) := by
  intro a
  induction a with
  | nil =>
    intro r s hs hcnt
    subst hs
    cases pat with
    | nil => exact absurd rfl hp
    | cons p pt =>
      rw [List.nil_append, List.cons_append, splitFirst,
        if_pos (List.isPrefixOf_iff_prefix.mpr (by rw [← List.cons_append]; exact List.prefix_append _ _)),
        ← List.cons_append, List.drop_left]
  | cons d a2 ih =>
    intro r s hs hcnt
    subst hs
    rw [List.cons_append] at hcnt ⊢
    rw [splitFirst]
    have hnp : pat.isPrefixOf (d :: (a2 ++ (pat ++ r))) = false := by
      cases hnp : pat.isPrefixOf (d :: (a2 ++ (pat ++ r))) with
      | false => rfl
      | true =>
        exfalso
        rw [countOccur, if_pos hnp] at hcnt
        have := occ_ge_one pat hp a2 r
        omega
    rw [hnp]
    have hrec : splitFirst pat (a2 ++ (pat ++ r)) = some (a2, r) := by
      apply ih r _ rfl
      rw [countOccur, hnp] at hcnt
      omega
    rw [hrec]
    simp
theorem trimChars_infix_self (l : List Char) : trimChars l <:+: l := by
  unfold trimChars
  have h2 : ((l.dropWhile isJsWs).reverse.dropWhile isJsWs) <:+: (l.dropWhile isJsWs).reverse :=
    (List.dropWhile_suffix _).isInfix
  have h3 := List.reverse_infix.mpr h2
  rw [List.reverse_reverse] at h3
  exact h3.trans (List.dropWhile_suffix _).isInfix

theorem saveSiteAndRedeploy_conv (env : Env) (w : World) (sub : Option String)
    (h : String) (url : Option String) :
    (saveSiteAndRedeploy env w sub h url).conv = { w.conv with site_html := some h } := by
  cases sub with
  | none =>
    simp only [saveSiteAndRedeploy]
    split_ifs <;> rfl
  | some s =>
    simp only [saveSiteAndRedeploy]
    split_ifs <;> rfl

/-- C3 (amended): in active mode with a resolved site and an assistant output
holding exactly one well-formed marker pair, the user reply is the text
around the block (trimmed), the extracted HTML — persisted as the new
canonical document — is the trimmed block interior and contains neither
marker, and the fixed confirmation replaces an empty reply. The reply itself
contains no marker occurrence PROVIDED the text before the block and the
text after it do not splice into a fresh marker when concatenated (the code
glues them directly, so a marker spanning that junction survives into the
reply — see the counterexample). -/
theorem active_marker_strip_clean (env : Env) (w : World) (convo : Conv)
    (message full : String) (a b c : List Char) (sd : SiteData)
    (hsd : (getSiteHTML w).1 = some sd)
    (hai : env.activeAI (buildActiveSystemPrompt (some sd) convo.contact_phone)
        (buildMessages (getSiteHTML w).2.log message) = .ok full)
    (hdecomp : full.data = a ++ startMarker ++ b ++ endMarker ++ c)
    (hc1 : countOccur startMarker full.data ≤ 1)
    (hc2 : countOccur endMarker full.data ≤ 1)
    (hjs : ¬ startMarker <:+: a ++ c) (hje : ¬ endMarker <:+: a ++ c) :
    (processActive env w convo message).2 = .ok
      { response := if (jsTrim ((⟨a⟩ : String) ++ (⟨c⟩ : String))).isEmpty then
          "done. refresh the page." else jsTrim ((⟨a⟩ : String) ++ (⟨c⟩ : String)),
        newState := "active", extracted := [] } ∧
    (processActive env w convo message).1.conv.site_html = some (⟨trimChars b⟩ : String) ∧
    (¬ startMarker <:+: (if (jsTrim ((⟨a⟩ : String) ++ (⟨c⟩ : String))).isEmpty then
          "done. refresh the page." else jsTrim ((⟨a⟩ : String) ++ (⟨c⟩ : String))).data ∧
     ¬ endMarker <:+: (if (jsTrim ((⟨a⟩ : String) ++ (⟨c⟩ : String))).isEmpty then
          "done. refresh the page." else jsTrim ((⟨a⟩ : String) ++ (⟨c⟩ : String))).data) ∧
    (¬ startMarker <:+: trimChars b ∧ ¬ endMarker <:+: trimChars b) := by
  have hs1 : splitFirst startMarker full.data = some (a, b ++ (endMarker ++ c)) := by
    apply splitFirst_of_unique startMarker (by decide) a (b ++ (endMarker ++ c)) full.data _ hc1
    rw [hdecomp]
    simp [List.append_assoc]
  have hc2' : countOccur endMarker (b ++ (endMarker ++ c)) ≤ 1 := by
    rw [hdecomp] at hc2
    simp only [List.append_assoc] at hc2
    calc countOccur endMarker (b ++ (endMarker ++ c))
        ≤ countOccur endMarker (startMarker ++ (b ++ (endMarker ++ c))) := occ_suffix_le _ _ _
      _ ≤ countOccur endMarker (a ++ (startMarker ++ (b ++ (endMarker ++ c)))) := occ_suffix_le _ _ _
      _ ≤ 1 := hc2
  have hs2 : splitFirst endMarker (b ++ (endMarker ++ c)) = some (b, c) :=
    splitFirst_of_unique endMarker (by decide) b c _ rfl hc2'
  have hm : matchHtmlBlock full = some (⟨a⟩, ⟨b⟩, ⟨c⟩) := by
    simp only [matchHtmlBlock, hs1, hs2]
  have hbs : ¬ startMarker <:+: b := by
    intro hinf
    obtain ⟨u, v, huv⟩ := hinf
    rw [hdecomp] at hc1
    simp only [List.append_assoc] at hc1
    have h1 : countOccur startMarker (b ++ (endMarker ++ c)) + 1 ≤
        countOccur startMarker (a ++ (startMarker ++ (b ++ (endMarker ++ c)))) :=
      occ_insert startMarker (by decide) a _
    have h2 : 1 ≤ countOccur startMarker (b ++ (endMarker ++ c)) := by
      rw [← huv]
      simp only [List.append_assoc]
      exact occ_ge_one startMarker (by decide) u _
    omega
  have hbe : ¬ endMarker <:+: b := by
    intro hinf
    obtain ⟨u, v, huv⟩ := hinf
    rw [hdecomp] at hc2
    simp only [List.append_assoc] at hc2
    have h1 : countOccur endMarker (v ++ (endMarker ++ c)) + 1 ≤
        countOccur endMarker (u ++ (endMarker ++ (v ++ (endMarker ++ c)))) :=
      occ_insert endMarker (by decide) u _
    have h2 : 1 ≤ countOccur endMarker (v ++ (endMarker ++ c)) :=
      occ_ge_one endMarker (by decide) v c
    have h3 : countOccur endMarker (u ++ (endMarker ++ (v ++ (endMarker ++ c)))) ≤ 1 := by
      calc countOccur endMarker (u ++ (endMarker ++ (v ++ (endMarker ++ c))))
          ≤ countOccur endMarker (b ++ (endMarker ++ c)) := by
            rw [← huv]; simp only [List.append_assoc]; exact le_refl _
        _ ≤ countOccur endMarker (startMarker ++ (b ++ (endMarker ++ c))) := occ_suffix_le _ _ _
        _ ≤ countOccur endMarker (a ++ (startMarker ++ (b ++ (endMarker ++ c)))) := occ_suffix_le _ _ _
        _ ≤ 1 := hc2
    omega
  refine ⟨?_, ?_, ?_, ?_, ?_⟩
  · simp only [processActive, hsd, hai, hm]
  · simp only [processActive, hsd, hai, hm]
    rw [saveSiteAndRedeploy_conv]
    rfl
  · constructor
    · cases hemp : (jsTrim ((⟨a⟩ : String) ++ (⟨c⟩ : String))).isEmpty
      · rw [if_neg (by simp)]
        intro hinf
        exact hjs (hinf.trans (trimChars_infix_self (a ++ c)))
      · rw [if_pos rfl]
        decide
    · cases hemp : (jsTrim ((⟨a⟩ : String) ++ (⟨c⟩ : String))).isEmpty
      · rw [if_neg (by simp)]
        intro hinf
        exact hje (hinf.trans (trimChars_infix_self (a ++ c)))
      · rw [if_pos rfl]
        decide
  · intro hinf
    exact hbs (hinf.trans (trimChars_infix_self b))
  · intro hinf
    exact hbe (hinf.trans (trimChars_infix_self b))
/-- C3 counterexample: the assistant output contains exactly one well-formed
marker pair (one occurrence of each marker, start before end), yet the
stripped reply contains a full start marker, spliced together from the text
before and after the block. -/
theorem active_marker_strip_counterexample :
    countOccur startMarker cexFull.data = 1 ∧
    countOccur endMarker cexFull.data = 1 ∧
    (processActive envCex wActive wActive.conv "hi").2 =
      .ok { response := "x<!-- MARCO_HTML_START -->y", newState := "active" } ∧
    startMarker <:+: ("x<!-- MARCO_HTML_START -->y" : String).data := by
  refine ⟨by decide, by decide, by rfl, by decide⟩

/-- C3 witness: a clean single-marker edit on a concrete active conversation
persists the inner HTML and replies with the marker-free surrounding text. -/
theorem active_marker_strip_clean_witness :
    (processActive envC3 wActive wActive.conv "hi").2 =
      .ok { response := "done!  enjoy", newState := "active" } ∧
    (processActive envC3 wActive wActive.conv "hi").1.conv.site_html =
      some "<html>new</html>" ∧
    ¬ startMarker <:+: ("done!  enjoy" : String).data := by
  have h := active_marker_strip_clean envC3 wActive wActive.conv "hi" c3Full
    "done! ".data "<html>new</html>".data " enjoy".data
    { html := "<html>old</html>", subdomain := some "bob",
      siteUrl := some "https://bob.textmarco.com" }
    rfl rfl (by decide) (by decide) (by decide) (by decide) (by decide)
  refine ⟨?_, ?_, ?_⟩
  · rw [h.1]
    simp only [Except.ok.injEq]
    decide
  · rw [h.2.1]
    decide
  · have h3 := h.2.2.1.1
    rw [show (if (jsTrim (("done! " : String) ++ (" enjoy" : String))).isEmpty then
        "done. refresh the page." else jsTrim (("done! " : String) ++ (" enjoy" : String))) =
        ("done!  enjoy" : String) from by decide] at h3
    exact h3
